import Mathlib

/-! # TopHat widgets: `SliderShape` (TaskNavSliderShape.cpp) and `WndButton` (Form/Button.cpp)

A shallow embedding of the layout, visibility and drawing code of the
navigation slider shape and of the push button, together with theorems
about them.

Conventions of the embedding.

* `UPixelScalar` / `unsigned` values are integers reduced modulo `2^32`
  (`toUPixelScalar`); a conversion to `PixelScalar` / `int` is `toPixelScalar`.
  Arithmetic that C++ performs on `int` operands is exact integer arithmetic.
* The canvas is a log: every drawing function returns the list of canvas
  calls it issues, in order.
* `fixed` values (angles in degrees, glide ratio, distances) are rationals.
* `assert` statements are not part of the functions (release semantics);
  where needed they are predicates of their own.
-/

namespace TopHat

/-! ## Machine integers and screen geometry -/

/-- Modelled from the spec: `UPixelScalar` is a typedef of Screen/Point.hpp, which is
not among the sources; the spec speaks of integer pixel coordinates, and the type is
taken to be the 32-bit `unsigned`.  This is the conversion of an integer to it. -/
def toUPixelScalar (v : Int) : Int := v % 4294967296

/-- Modelled from the spec: `PixelScalar` is a typedef of Screen/Point.hpp, which is
not among the sources; it is taken to be the 32-bit `int`.  This is the conversion of
an integer (in particular of an unsigned value) to it. -/
def toPixelScalar (v : Int) : Int := (v + 2147483648) % 4294967296 - 2147483648

/-- A point on the screen (`RasterPoint`). -/
structure RasterPoint where
  x : Int
  y : Int
  deriving DecidableEq, Repr, Inhabited

/-- The size of an icon (`PixelSize`). -/
structure PixelSize where
  cx : Int
  cy : Int
  deriving DecidableEq, Repr, Inhabited

/-- A rectangle on the screen (`PixelRect`). -/
structure PixelRect where
  left : Int
  top : Int
  right : Int
  bottom : Int
  deriving DecidableEq, Repr, Inhabited

/-- Modelled from the spec: `PixelRect::IsInside` is declared in Screen/Point.hpp, which
is not among the sources.  The spec has points "inside the current clip rectangle";
the rectangle contains its left and top edge and excludes its right and bottom edge. -/
def PixelRect.IsInside (rc : PixelRect) (pt : RasterPoint) : Bool :=
  decide (rc.left ≤ pt.x) && decide (pt.x < rc.right) &&
    decide (rc.top ≤ pt.y) && decide (pt.y < rc.bottom)

/-- The three fonts of the slider look. -/
inductive FontId where
  | small_font
  | medium_font
  | large_font
  deriving DecidableEq, Repr

/-- The part of `NavSliderLook` the shape reads: font heights and pen widths. -/
structure NavSliderLook where
  small_font_height : Nat
  medium_font_height : Nat
  large_font_height : Nat
  /-- The value of `GetBorderPenWidth(use_wide_pen)`. -/
  border_pen_width : Bool → Nat
  background_pen_width : Nat

/-- The pixel scaling functions of `Layout`; Screen/Layout.hpp is not among the sources, so
the two functions are parameters. -/
structure Layout where
  Scale : Int → Int
  FastScale : Int → Int

/-- The state of a `SliderShape`: the eight vertices, the text line offsets and the
size of the bearing icons. -/
structure SliderShape where
  points : List RasterPoint
  line_one_y : Int
  line_two_y : Int
  line_three_y : Int
  bearing_icon_size : PixelSize
  deriving Repr

/-- The accessor `GetPoint(i)`: `points[i]`. -/
def GetPoint (points : List RasterPoint) (i : Nat) : RasterPoint :=
  points.getD i ⟨0, 0⟩

/-- Modelled from the spec: `GetHintWidth` is defined in TaskNavSliderShape.hpp, which is
not among the sources.  The spec's glossary has the hint width as the "half-width of the
triangular tip": the horizontal extent of the right tip, from the end of the flat edge
(vertex 4) to the tip (vertex 2), as a `UPixelScalar`. -/
def GetHintWidth (points : List RasterPoint) : Int :=
  toUPixelScalar ((GetPoint points 2).x - (GetPoint points 4).x)

/-- Modelled from the spec: `GetWidth` is defined in TaskNavSliderShape.hpp, which is not
among the sources.  The width of the shape is the distance between the shape extremes,
from the left tip (vertex 6) to the right tip (vertex 2), as a `UPixelScalar`. -/
def GetWidth (points : List RasterPoint) : Int :=
  toUPixelScalar ((GetPoint points 2).x - (GetPoint points 6).x)

/-! ## `SliderShape::Resize` -/

/-- One step of the loop that ends `Resize`: `points[i].x += amount`. -/
def growPoint (points : List RasterPoint) (amount : Int) (i : Nat) : List RasterPoint :=
  points.set i ⟨(GetPoint points i).x + amount, (GetPoint points i).y⟩

/-- The function `SliderShape::Resize(map_width)`. -/
def Resize (look : NavSliderLook) (layout : Layout) (s : SliderShape) (map_width : Nat) :
    SliderShape :=
  let arrow_point_bluntness : Int := 0
  let raw_total_width : Int := toUPixelScalar (layout.Scale 360)
  let total_height : Int :=
    toUPixelScalar ((look.large_font_height : Int) + (look.medium_font_height : Int)
      - layout.Scale 2)
  let total_height : Int := max total_height (toUPixelScalar s.bearing_icon_size.cy)
  -- make 45 degree angle
  let raw_hint_width : Int := toUPixelScalar (total_height - arrow_point_bluntness) / 2
  let raw_hint_width : Int :=
    max raw_hint_width (toUPixelScalar (Int.tdiv s.bearing_icon_size.cx 2))
  let total_height : Int :=
    max total_height (toUPixelScalar (raw_hint_width * 2 + arrow_point_bluntness))
  let line_two : Int := toUPixelScalar (total_height - (look.large_font_height : Int) - 1)
  -- top
  let p0 : RasterPoint := ⟨toPixelScalar raw_hint_width, 0⟩
  let p1 : RasterPoint := ⟨toPixelScalar (toUPixelScalar (raw_total_width - raw_hint_width)), 0⟩
  -- right arrow tip
  let p2 : RasterPoint :=
    ⟨toPixelScalar raw_total_width,
     toPixelScalar (toUPixelScalar (total_height - arrow_point_bluntness) / 2)⟩
  let p3 : RasterPoint :=
    ⟨toPixelScalar raw_total_width,
     toPixelScalar (toUPixelScalar (total_height + arrow_point_bluntness) / 2)⟩
  -- bottom
  let p4 : RasterPoint := ⟨p1.x, toPixelScalar total_height⟩
  let p5 : RasterPoint := ⟨p0.x, toPixelScalar total_height⟩
  -- left arrow tip
  let p6 : RasterPoint := ⟨0, p3.y⟩
  let p7 : RasterPoint := ⟨0, p2.y⟩
  let points : List RasterPoint := [p0, p1, p2, p3, p4, p5, p6, p7]
  let amount_to_grow_x : Int :=
    toPixelScalar (toUPixelScalar
      ((map_width : Int) - GetHintWidth points * 2 - raw_total_width - 1))
  let neg_min_grow : Int := (GetPoint points 5).x - (GetPoint points 4).x
  let amount_to_grow_x : Int :=
    if amount_to_grow_x < neg_min_grow then neg_min_grow else amount_to_grow_x
  { s with
    points := [1, 2, 3, 4].foldl (fun ps i => growPoint ps amount_to_grow_x i) points
    line_one_y := 0
    line_two_y := line_two
    line_three_y := 0 }

/-- The x coordinate of vertex `i` after `Resize(map_width)`. -/
def pointX (look : NavSliderLook) (layout : Layout) (s : SliderShape) (map_width i : Nat) : Int :=
  (GetPoint (Resize look layout s map_width).points i).x

/-- The y coordinate of vertex `i` after `Resize(map_width)`. -/
def pointY (look : NavSliderLook) (layout : Layout) (s : SliderShape) (map_width i : Nat) : Int :=
  (GetPoint (Resize look layout s map_width).points i).y

/-- The hint width after `Resize(map_width)`. -/
def hintWidth (look : NavSliderLook) (layout : Layout) (s : SliderShape) (map_width : Nat) : Int :=
  GetHintWidth (Resize look layout s map_width).points

/-- The total height of the shape after `Resize(map_width)`: the y coordinate of the bottom
edge (vertices 4 and 5); the top edge is at `y = 0`. -/
def totalHeight (look : NavSliderLook) (layout : Layout) (s : SliderShape) (map_width : Nat) :
    Int :=
  pointY look layout s map_width 4

/-- The quantities `Resize` reads are small enough for no 32-bit computation to wrap:
the fonts are at least as high as `Scale(2)`, and all sizes are below `2^28`. -/
def NoWrap (look : NavSliderLook) (layout : Layout) (s : SliderShape) (map_width : Nat) : Prop :=
  0 ≤ layout.Scale 2 ∧
    layout.Scale 2 ≤ (look.large_font_height : Int) + (look.medium_font_height : Int) ∧
    (look.large_font_height : Int) + (look.medium_font_height : Int) < 268435456 ∧
    0 ≤ layout.Scale 360 ∧ layout.Scale 360 < 268435456 ∧
    0 ≤ s.bearing_icon_size.cx ∧ s.bearing_icon_size.cx < 268435456 ∧
    0 ≤ s.bearing_icon_size.cy ∧ s.bearing_icon_size.cy < 268435456 ∧
    map_width < 268435456

instance (look : NavSliderLook) (layout : Layout) (s : SliderShape) (map_width : Nat) :
    Decidable (NoWrap look layout s map_width) := by
  unfold NoWrap; infer_instance

/-- A look for examples: small, medium and large font of height 12, 21 and 22, pens of
width 1 (normal) and 3 (wide). -/
def exampleLook : NavSliderLook :=
  { small_font_height := 12, medium_font_height := 21, large_font_height := 22,
    border_pen_width := fun wide => if wide then 3 else 1, background_pen_width := 1 }

/-- A layout for examples: no scaling. -/
def exampleLayout : Layout := { Scale := fun v => v, FastScale := fun v => v }

/-- A shape for examples, before its first `Resize`: no bearing icon size yet. -/
def exampleShape : SliderShape :=
  { points := List.replicate 8 ⟨0, 0⟩, line_one_y := 0, line_two_y := 0, line_three_y := 0,
    bearing_icon_size := ⟨0, 0⟩ }

/-! ## Exact-arithmetic counterparts of the quantities of `Resize` -/

/-- The height of the shape as the fonts and the bearing icon give it, in exact arithmetic:
`max(large + medium - Scale(2), bearing_icon_size.cy)`. -/
def fontHeight (look : NavSliderLook) (layout : Layout) (s : SliderShape) : Int :=
  max ((look.large_font_height : Int) + (look.medium_font_height : Int) - layout.Scale 2)
    s.bearing_icon_size.cy

/-- The hint width in exact arithmetic: half the height, at least half the icon width. -/
def exactHint (look : NavSliderLook) (layout : Layout) (s : SliderShape) : Int :=
  max (fontHeight look layout s / 2) (s.bearing_icon_size.cx / 2)

/-- The total height in exact arithmetic: the height, at least twice the hint width. -/
def exactHeight (look : NavSliderLook) (layout : Layout) (s : SliderShape) : Int :=
  max (fontHeight look layout s) (exactHint look layout s * 2)

/-- The amount by which the vertices 1 to 4 are moved, in exact arithmetic. -/
def exactGrow (look : NavSliderLook) (layout : Layout) (s : SliderShape) (w : Nat) : Int :=
  max ((w : Int) - exactHint look layout s * 2 - layout.Scale 360 - 1)
    (exactHint look layout s * 2 - layout.Scale 360)

/-! ## `SliderShape::GetVisibilityLevel` -/

/-- How much of the shape lies inside the canvas (`SliderShape::VisibilityLevel`). -/
inductive VisibilityLevel where
  | Full
  | LeftTip
  | LeftTipAndBody
  | RightTip
  | RightTipAndBody
  | NotVisible
  deriving DecidableEq, Repr

/-- The function `SliderShape::GetVisibilityLevel(canvas, poly)`; `rc` is `canvas.GetRect()`. -/
def GetVisibilityLevel (layout : Layout) (rc : PixelRect) (poly : List RasterPoint) :
    VisibilityLevel :=
  let left_tip : RasterPoint := GetPoint poly 7
  let left_body : RasterPoint := GetPoint poly 5
  let left_body : RasterPoint := { left_body with x := left_body.x + layout.Scale 1 }
  let right_tip : RasterPoint := GetPoint poly 2
  let right_body : RasterPoint := GetPoint poly 1
  let right_body : RasterPoint := { right_body with x := right_body.x - layout.Scale 1 }
  if rc.IsInside left_tip && rc.IsInside right_tip then
    VisibilityLevel.Full
  else if rc.IsInside left_tip then
    if rc.IsInside left_body then VisibilityLevel.LeftTipAndBody else VisibilityLevel.LeftTip
  else if rc.IsInside right_tip then
    if rc.IsInside right_body then VisibilityLevel.RightTipAndBody else VisibilityLevel.RightTip
  else
    VisibilityLevel.NotVisible

/-- Horizontal reflection of a point in the axis `x = c / 2`. -/
def reflectPoint (c : Int) (pt : RasterPoint) : RasterPoint := ⟨c - pt.x, pt.y⟩

/-- Horizontal reflection of a rectangle: the rectangle that contains exactly the
reflections of the points of `rc` (`rc` excludes its right edge, so does the image). -/
def reflectRect (c : Int) (rc : PixelRect) : PixelRect :=
  ⟨c - rc.right + 1, rc.top, c - rc.left + 1, rc.bottom⟩

/-- The vertex that takes the role of vertex `i` in the mirrored polygon:
7 and 2, 6 and 3, 0 and 1, 5 and 4 change places. -/
def mirrorIndex : Nat → Nat
  | 0 => 1
  | 1 => 0
  | 2 => 7
  | 3 => 6
  | 4 => 5
  | 5 => 4
  | 6 => 3
  | 7 => 2
  | n => n

/-- Horizontal reflection of an 8-point polygon, the vertex roles mirrored. -/
def reflectPoly (c : Int) (poly : List RasterPoint) : List RasterPoint :=
  (List.range 8).map (fun i => reflectPoint c (GetPoint poly (mirrorIndex i)))

/-- The visibility level with left and right exchanged. -/
def swapSides : VisibilityLevel → VisibilityLevel
  | VisibilityLevel.Full => VisibilityLevel.Full
  | VisibilityLevel.LeftTip => VisibilityLevel.RightTip
  | VisibilityLevel.LeftTipAndBody => VisibilityLevel.RightTipAndBody
  | VisibilityLevel.RightTip => VisibilityLevel.LeftTip
  | VisibilityLevel.RightTipAndBody => VisibilityLevel.LeftTipAndBody
  | VisibilityLevel.NotVisible => VisibilityLevel.NotVisible

/-- A point moved horizontally by `d`. -/
def shiftX (pt : RasterPoint) (d : Int) : RasterPoint := ⟨pt.x + d, pt.y⟩

/-! ## The canvas log -/

/-- The icons the shape draws. -/
inductive Icon where
  | hBmpBearingRightOne
  | hBmpBearingRightTwo
  | hBmpBearingRightThree
  | hBmpBearingRightFour
  | hBmpBearingLeftOne
  | hBmpBearingLeftTwo
  | hBmpBearingLeftThree
  | hBmpBearingLeftFour
  | hBmpCheckMark
  | teammate_icon
  | target_icon
  deriving DecidableEq, Repr

/-- The string buffer whose contents a text call draws. -/
inductive TextBuffer where
  | nav_buffer
  | height_buffer
  | type_buffer
  | distance_buffer
  | tp_name
  deriving DecidableEq, Repr

/-- One call on the canvas (or on an icon or the waypoint renderer, which draw on it).
A call is recorded with the values of its argument expressions. -/
inductive DrawOp where
  | SetTextColor (selected : Bool)
  | SelectBackgroundBrush (selected : Bool)
  | SelectFont (font : FontId)
  | SelectWhitePen
  | SelectBorderPen (use_wide_pen : Bool)
  | SelectBackgroundPen
  | DrawPolygon (poly : List RasterPoint)
  | DrawLine (ax ay bx yb : Int)
  | DrawTwoLines (a b c : RasterPoint)
  | DrawFilledRectangle (left top right bottom : Int)
  | TextAutoClipped (buffer : TextBuffer) (x y : Int) (text : String)
  | DrawClippedText (buffer : TextBuffer) (x y width : Int) (text : String)
  | IconDrawUpperLeft (icon : Icon) (pt : RasterPoint)
  | IconDraw (icon : Icon) (pt : RasterPoint)
  | WaypointIconDraw (waypoint : Nat) (pt : RasterPoint) (reachable_terrain : Bool)
  deriving DecidableEq, Repr

/-- A call that draws text. -/
def DrawOp.isText : DrawOp → Bool
  | DrawOp.TextAutoClipped _ _ _ _ => true
  | DrawOp.DrawClippedText _ _ _ _ _ => true
  | _ => false

/-- A call that draws an icon: a bearing, checkmark, target or teammate icon, or a
waypoint icon through the waypoint renderer. -/
def DrawOp.isIcon : DrawOp → Bool
  | DrawOp.IconDrawUpperLeft _ _ => true
  | DrawOp.IconDraw _ _ => true
  | DrawOp.WaypointIconDraw _ _ _ => true
  | _ => false

/-- A call that draws neither text nor an icon. -/
def DrawOp.isPlain (op : DrawOp) : Bool := !op.isText && !op.isIcon

/-- A call that draws the placeholder of an invalid entry: the text "Click to navigate"
(translated) out of `nav_buffer`. -/
def DrawOp.isPlaceholder (gettext : String → String) : DrawOp → Bool
  | DrawOp.TextAutoClipped TextBuffer.nav_buffer _ _ text =>
    decide (text = gettext "Click to navigate")
  | _ => false

/-- A call that draws a text from the given buffer. -/
def DrawOp.drawsBuffer (b : TextBuffer) : DrawOp → Bool
  | DrawOp.TextAutoClipped b2 _ _ _ => decide (b2 = b)
  | DrawOp.DrawClippedText b2 _ _ _ _ => decide (b2 = b)
  | _ => false

/-- What the drawing code reads from its surroundings: the looks, the layout, the canvas
rectangle, text metrics, translations, formatters, settings and the platform. -/
structure Env where
  look : NavSliderLook
  layout : Layout
  /-- The value of `canvas.GetRect()`. -/
  canvas_rect : PixelRect
  /-- The value of `icon->GetSize()`. -/
  icon_size : Icon → PixelSize
  /-- The value of `canvas.CalcTextWidth(text)` with the given font selected. -/
  CalcTextWidth : FontId → String → Nat
  /-- The translation lookup `_()`. -/
  gettext : String → String
  navbar_enable_gr : Bool
  navbar_enable_tp_index : Bool
  FormatRelativeUserAltitude : ℚ → String
  FormatUserDistance : ℚ → String
  /-- The numeric glide-ratio formatter `FormatGlideRatio`. -/
  FormatGR : ℚ → String
  /-- The build is for the Kobo (`KOBO` is defined, `IsKobo()` holds). -/
  kobo : Bool
  /-- The build is for Windows (`_WIN32` is defined). -/
  win32 : Bool
  HasDraggableScreen : Bool

/-! ## `SliderShape::DrawBearing` -/

/-- The side on which a bearing icon is drawn (`SliderShape::BearingDirection`). -/
inductive BearingDirection where
  | None
  | Left
  | Right
  deriving DecidableEq, Repr

/-- The first half of `SliderShape::DrawBearing`: the icon and the direction chosen for the
bearing; `bearing` is the value of `bearing.AsDelta().Degrees()`.  The thresholds are
those of the enum `bearing_levels` (`first = 2`, `second = 10`, `third = 20`,
`fourth = 30`). -/
def DrawBearing_select (bearing : ℚ) : Option Icon × BearingDirection :=
  let first : ℚ := 2
  let second : ℚ := 10
  let third : ℚ := 20
  let fourth : ℚ := 30
  let chosen : Option Icon × BearingDirection := (none, BearingDirection.None)
  let chosen : Option Icon × BearingDirection :=
    if bearing > first then
      (some (if bearing > fourth then Icon.hBmpBearingRightFour
        else if bearing > third then Icon.hBmpBearingRightThree
        else if bearing > second then Icon.hBmpBearingRightTwo
        else Icon.hBmpBearingRightOne), BearingDirection.Right)
    else chosen
  let chosen : Option Icon × BearingDirection :=
    if bearing < -first then
      (some (if bearing < -fourth then Icon.hBmpBearingLeftFour
        else if bearing < -third then Icon.hBmpBearingLeftThree
        else if bearing < -second then Icon.hBmpBearingLeftTwo
        else Icon.hBmpBearingLeftOne), BearingDirection.Left)
    else chosen
  chosen

/-- The function `SliderShape::DrawBearing(canvas, rc_outer, bearing)`: the direction it returns
and the canvas calls it issues. -/
def DrawBearing (env : Env) (s : SliderShape) (rc_outer : PixelRect) (bearing : ℚ) :
    BearingDirection × List DrawOp :=
  match DrawBearing_select bearing with
  | (_, BearingDirection.None) => (BearingDirection.None, [])
  | (none, direction) => (direction, [])
  | (some icon_bearing, direction) =>
    let icon_bearing_size : PixelSize := env.icon_size icon_bearing
    let vert_margin : Int := (GetPoint s.points 2).y - Int.tdiv icon_bearing_size.cy 2
    let x_offset : Int :=
      if direction = BearingDirection.Left then 1
      else toUPixelScalar (GetWidth s.points - icon_bearing_size.cx)
    let upper_left : RasterPoint :=
      ⟨toPixelScalar (toUPixelScalar (rc_outer.left + x_offset)), vert_margin⟩
    let lower_right : RasterPoint :=
      ⟨upper_left.x + icon_bearing_size.cx, upper_left.y + icon_bearing_size.cy⟩
    if env.canvas_rect.IsInside upper_left && env.canvas_rect.IsInside lower_right then
      (direction, [DrawOp.IconDrawUpperLeft icon_bearing upper_left])
    else
      (direction, [])

/-! ## `SliderShape::DrawOutline` and its helpers -/

/-- The function `SliderShape::DrawBackgroundAll(canvas, poly)`. -/
def DrawBackgroundAll (env : Env) (poly : List RasterPoint) : List DrawOp :=
  [DrawOp.SelectWhitePen, DrawOp.DrawPolygon poly] ++
    (if env.kobo then
      let y : Int := env.look.background_pen_width
      [DrawOp.SelectBackgroundPen,
       DrawOp.DrawLine (GetPoint poly 0).x y (GetPoint poly 1).x y]
    else [])

/-- The function `SliderShape::DrawOutlineAll(canvas, poly, use_wide_pen)`. -/
def DrawOutlineAll (poly : List RasterPoint) (use_wide_pen : Bool) : List DrawOp :=
  [DrawOp.SelectBorderPen use_wide_pen,
   DrawOp.DrawTwoLines (GetPoint poly 1) (GetPoint poly 2) (GetPoint poly 3),
   DrawOp.DrawTwoLines (GetPoint poly 3) (GetPoint poly 4) (GetPoint poly 5),
   DrawOp.DrawTwoLines (GetPoint poly 5) (GetPoint poly 6) (GetPoint poly 7),
   DrawOp.DrawLine (GetPoint poly 7).x (GetPoint poly 7).y (GetPoint poly 0).x (GetPoint poly 0).y]

/-- The vertex `poly_raw[i]` of `DrawOutline`: the shape point moved by the offsets. -/
def rawVertex (s : SliderShape) (rc : PixelRect) (i : Nat) : RasterPoint :=
  let x_offset : Int := rc.left
  let y_offset : Int := 0
  ⟨(GetPoint s.points i).x + x_offset, (GetPoint s.points i).y + y_offset⟩

/-- The vertex `poly[i]` of `DrawOutline`: the raw vertex clamped into the canvas. -/
def clampedVertex (env : Env) (s : SliderShape) (rc : PixelRect) (use_wide_pen : Bool)
    (i : Nat) : RasterPoint :=
  let canvas_rect : PixelRect := env.canvas_rect
  let width : Int := env.look.border_pen_width use_wide_pen
  let width_offset : Int := if env.kobo then 1 else 0
  let top_line_offset : Int := if env.kobo then 2 else 1
  let x : Int := (rawVertex s rc i).x
  let y : Int := (rawVertex s rc i).y
  let x : Int := max x (toPixelScalar (toUPixelScalar (canvas_rect.left + width / 2 + width_offset)))
  let x : Int := min x (toPixelScalar (toUPixelScalar (canvas_rect.right - width / 2 - 1)))
  let y : Int := max y (toPixelScalar (canvas_rect.top + top_line_offset))
  let y : Int := min y (toPixelScalar (toUPixelScalar (canvas_rect.bottom - width / 2 - 1)))
  ⟨x, y⟩

/-- The function `SliderShape::DrawOutline(canvas, rc, use_wide_pen)`: whether the outline was
drawn, and the canvas calls.  The result is `none` when `gcc_unreachable()` is reached. -/
def DrawOutline (env : Env) (s : SliderShape) (rc : PixelRect) (use_wide_pen : Bool) :
    Option (Bool × List DrawOp) :=
  let poly : List RasterPoint := (List.range 8).map (clampedVertex env s rc use_wide_pen)
  let poly_raw : List RasterPoint := (List.range 8).map (rawVertex s rc)
  let visibility : VisibilityLevel := GetVisibilityLevel env.layout env.canvas_rect poly_raw
  if visibility = VisibilityLevel.NotVisible then
    some (false, [])
  else if env.win32 then
    some (true, [DrawOp.SelectBorderPen use_wide_pen, DrawOp.DrawPolygon poly])
  else
    match visibility with
    | VisibilityLevel.Full | VisibilityLevel.LeftTipAndBody | VisibilityLevel.RightTipAndBody =>
      some (true, DrawBackgroundAll env poly ++ DrawOutlineAll poly use_wide_pen)
    | VisibilityLevel.LeftTip =>
      some (true, [DrawOp.SelectWhitePen, DrawOp.DrawPolygon poly,
        DrawOp.SelectBorderPen use_wide_pen,
        DrawOp.DrawTwoLines (GetPoint poly 0) (GetPoint poly 6) (GetPoint poly 5)])
    | VisibilityLevel.RightTip =>
      some (true, [DrawOp.SelectWhitePen, DrawOp.DrawPolygon poly,
        DrawOp.SelectBorderPen use_wide_pen,
        DrawOp.DrawTwoLines (GetPoint poly 1) (GetPoint poly 2) (GetPoint poly 4)])
    | VisibilityLevel.NotVisible => none

/-- The function `SliderShape::PaintBackground` (Windows only). -/
def PaintBackground (s : SliderShape) (idx list_length : Nat) (rc_outer : PixelRect) :
    List DrawOp :=
  let x_offset : Int := toUPixelScalar rc_outer.left
  (if idx = 0 then
    let left_mid : RasterPoint := GetPoint s.points 7
    [DrawOp.DrawFilledRectangle 0 0 (toPixelScalar (toUPixelScalar (x_offset + left_mid.x)))
      rc_outer.bottom]
  else []) ++
  (if (idx : Int) = toUPixelScalar ((list_length : Int) - 1) then
    let right_mid : RasterPoint := GetPoint s.points 3
    [DrawOp.DrawFilledRectangle (toPixelScalar (toUPixelScalar (x_offset + right_mid.x))) 0
      (toPixelScalar (toUPixelScalar (x_offset + right_mid.x + GetHintWidth s.points + 1)))
      rc_outer.bottom]
  else [])

/-- The function `SliderShape::DrawInvalid(canvas, rc_outer, rc, idx, selected, use_wide_pen)`;
`none` when `DrawOutline` reaches `gcc_unreachable()`. -/
def DrawInvalid (env : Env) (s : SliderShape) (rc_outer rc : PixelRect) (idx : Nat)
    (selected use_wide_pen : Bool) : Option (List DrawOp) :=
  match DrawOutline env s rc_outer use_wide_pen with
  | none => none
  | some (_, outline) =>
    let nav_font : FontId := FontId.medium_font
    let nav_buffer : String := env.gettext "Click to navigate"
    let width : Int := env.CalcTextWidth nav_font nav_buffer
    let left : Int :=
      toPixelScalar (toUPixelScalar (rc.left + toUPixelScalar (rc.right - rc.left - width) / 2))
    some ([DrawOp.SetTextColor selected, DrawOp.SelectBackgroundBrush selected] ++ outline ++
      [DrawOp.SelectFont nav_font] ++
      (if left > 0 then
        [DrawOp.TextAutoClipped TextBuffer.nav_buffer left
          (toUPixelScalar
            (rc.top + toUPixelScalar (rc.bottom - rc.top - env.look.medium_font_height) / 2))
          nav_buffer]
      else []) ++
      (if env.win32 && env.HasDraggableScreen then PaintBackground s idx 1 rc_outer else []))

/-! ## `SliderShape::GetTypeText` and `SliderShape::Draw` -/

/-- The kind of task (`TaskType`). -/
inductive TaskType where
  | NONE
  | ORDERED
  | ABORT
  | GOTO
  | TEAMMATE
  deriving DecidableEq, Repr

/-- The task factory type (`TaskFactoryType`); only `AAT` is told apart from the others. -/
inductive TaskFactoryType where
  | AAT
  | other (code : Nat)
  deriving DecidableEq, Repr

/-- The function `SliderShape::GetTypeText`: the contents of `type_buffer` afterwards. -/
def GetTypeText (env : Env) (task_mode : TaskType) (idx task_size : Nat)
    (is_start is_finish is_aat navigate_to_target : Bool) : String :=
  match task_mode with
  | TaskType.ORDERED =>
    if task_size = 0 then env.gettext "Go\x27n home:"
    else if is_start then env.gettext "Start"
    else if is_finish then env.gettext "Finish"
    else if is_aat && navigate_to_target then ""
    else if is_aat then env.gettext "Center" ++ " " ++ toString idx
    else env.gettext "TP" ++ " " ++ toString idx
  | TaskType.GOTO | TaskType.TEAMMATE | TaskType.ABORT => env.gettext "Goto:"
  | TaskType.NONE => env.gettext "Go\x27n home:"

/-- The parameters of `SliderShape::Draw` (the canvas apart). -/
structure DrawArgs where
  rc_outer : PixelRect
  idx : Nat
  selected : Bool
  is_current_tp : Bool
  tp_name : String
  /-- The waypoint `twp`, `none` for a null pointer. -/
  twp : Option Nat
  has_entered : Bool
  has_exited : Bool
  task_mode : TaskType
  task_factory_type : TaskFactoryType
  task_size : Nat
  tp_valid : Bool
  tp_distance : ℚ
  distance_valid : Bool
  tp_altitude_difference : ℚ
  altitude_difference_valid : Bool
  /-- The value of `delta_bearing.AsDelta().Degrees()`. -/
  delta_bearing : ℚ
  bearing_valid : Bool
  gradient : ℚ
  gr_valid : Bool
  use_wide_pen : Bool
  navigate_to_target : Bool

/-- `is_start` of `Draw`. -/
def DrawArgs.is_start (a : DrawArgs) : Bool := decide (a.idx = 0)

/-- `is_finish` of `Draw`: `idx + 1 == task_size`, in `unsigned` arithmetic. -/
def DrawArgs.is_finish (a : DrawArgs) : Bool :=
  decide (toUPixelScalar ((a.idx : Int) + 1) = (a.task_size : Int))

/-- `is_ordered` of `Draw`. -/
def DrawArgs.is_ordered (a : DrawArgs) : Bool := decide (a.task_mode = TaskType.ORDERED)

/-- `is_teammate` of `Draw`. -/
def DrawArgs.is_teammate (a : DrawArgs) : Bool := decide (a.task_mode = TaskType.TEAMMATE)

/-- `is_aat` of `Draw`. -/
def DrawArgs.is_aat (a : DrawArgs) : Bool := decide (a.task_factory_type = TaskFactoryType.AAT)

/-- `draw_checkmark` of `Draw`. -/
def DrawArgs.draw_checkmark (a : DrawArgs) : Bool :=
  a.is_ordered && decide (a.task_size > 1) &&
    ((!a.is_start && a.has_entered) || (a.is_start && a.has_exited))

/-- The rectangle `rc` of `Draw`: `rc_outer` with one and a half hint widths taken off
its left and its right. -/
def Draw_rc (s : SliderShape) (rc_outer : PixelRect) : PixelRect :=
  { rc_outer with
    left := toPixelScalar (toUPixelScalar
      (rc_outer.left + toUPixelScalar (3 * GetHintWidth s.points) / 2))
    right := toPixelScalar (toUPixelScalar
      (rc_outer.right - toUPixelScalar (3 * GetHintWidth s.points) / 2)) }

/-- `type_buffer` of `Draw`. -/
def Draw_type_buffer (env : Env) (a : DrawArgs) : String :=
  GetTypeText env a.task_mode a.idx a.task_size a.is_start a.is_finish a.is_aat
    a.navigate_to_target

/-- `label_width` of `Draw`. -/
def Draw_label_width (env : Env) (a : DrawArgs) : Int :=
  env.CalcTextWidth FontId.small_font (Draw_type_buffer env a)

/-- `height_buffer` of `Draw`. -/
def Draw_height_buffer (env : Env) (a : DrawArgs) : String :=
  if a.altitude_difference_valid then env.FormatRelativeUserAltitude a.tp_altitude_difference
  else ""

/-- `height_width` of `Draw`. -/
def Draw_height_width (env : Env) (a : DrawArgs) : Int :=
  if a.altitude_difference_valid then
    (env.CalcTextWidth FontId.small_font (Draw_height_buffer env a) : Int)
  else 0

/-- `do_bearing` of `Draw`. -/
def Draw_do_bearing (a : DrawArgs) : Bool :=
  if a.is_current_tp && a.bearing_valid && a.is_ordered && decide (a.idx > 0) then true
  else if !a.is_ordered && a.bearing_valid then true
  else false

/-- Modelled from the spec: `StaticString` (Util/StaticString.hxx) is not among the sources,
and the spec gives no rule for it.  A `StaticString<capacity>` is an array of `capacity`
characters that ends in a zero, so it holds at most `capacity - 1` characters: this is a
text as such a buffer holds it after an assignment or a `Format`, cut to that length. -/
def StaticString_set (capacity : Nat) (text : String) : String :=
  ⟨text.data.take (capacity - 1)⟩

/-- Modelled from the spec: `StaticString` (Util/StaticString.hxx) is not among the sources.
This is the part of `text` that `buffer.append(text)` or `buffer.AppendFormat(...)` adds to
a `StaticString<capacity>`: as many characters as the buffer has room for. -/
def StaticString_appended (capacity : Nat) (buffer text : String) : String :=
  ⟨text.data.take (capacity - 1 - buffer.length)⟩

/-- Modelled from the spec: `StaticString` (Util/StaticString.hxx) is not among the sources.
This is a `StaticString<capacity>` after `buffer.append(text)` or
`buffer.AppendFormat(...)`. -/
def StaticString_append (capacity : Nat) (buffer text : String) : String :=
  buffer ++ StaticString_appended capacity buffer text

/-- `distance_buffer` of `Draw`, a `StaticString<30>`, before the glide ratio is appended:
the "Target: " prefix, if any, and the distance.  The distance formatter writes its result
into `distance_only_buffer` itself; `Format` and `append` cut to the capacity. -/
def Draw_distance_text (env : Env) (a : DrawArgs) : String :=
  let distance_only_buffer : String :=
    if a.distance_valid then env.FormatUserDistance a.tp_distance else ""
  let distance_buffer : String := ""
  let distance_buffer : String :=
    if a.navigate_to_target && decide (a.task_size > 0) && !a.is_start && !a.is_finish then
      StaticString_set 30 (env.gettext "Target" ++ ": ")
    else distance_buffer
  StaticString_append 30 distance_buffer distance_only_buffer

/-- `glide_ratio_buffer` of `Draw`, a `StaticString<10>` that the numeric glide-ratio
formatter fills, being handed its capacity. -/
def Draw_glide_ratio_buffer (env : Env) (a : DrawArgs) : String :=
  StaticString_set 10 (env.FormatGR a.gradient)

/-- The text `Draw` hands to `distance_buffer.append` or `distance_buffer.AppendFormat` for
the glide ratio; empty where no such call is made. -/
def Draw_gr_text (env : Env) (a : DrawArgs) : String :=
  if a.gr_valid && env.navbar_enable_gr then
    if a.gradient ≤ 0 then " [##]"
    else if a.gradient ≥ 99.5 then " [99+]"
    else " [" ++ Draw_glide_ratio_buffer env a ++ "]"
  else ""

/-- What `Draw` appends to `distance_buffer` for the glide ratio: the text handed to the
buffer, as far as the buffer has room for it. -/
def Draw_gr_suffix (env : Env) (a : DrawArgs) : String :=
  StaticString_appended 30 (Draw_distance_text env a) (Draw_gr_text env a)

/-- `distance_buffer` of `Draw`. -/
def Draw_distance_buffer (env : Env) (a : DrawArgs) : String :=
  StaticString_append 30 (Draw_distance_text env a) (Draw_gr_text env a)

/-- `distance_width` of `Draw`, where it is computed. -/
def Draw_distance_width (env : Env) (a : DrawArgs) : Int :=
  env.CalcTextWidth FontId.medium_font (Draw_distance_buffer env a)

/-- The test of `Draw` for room for the type label beside the distance:
`(PixelScalar)(distance_width + height_width) <
 (PixelScalar)(rc.right - rc.left - label_width - Layout::FastScale(15))`. -/
def Draw_label_fits (env : Env) (s : SliderShape) (a : DrawArgs) : Bool :=
  let rc : PixelRect := Draw_rc s a.rc_outer
  decide (toPixelScalar (toUPixelScalar (Draw_distance_width env a + Draw_height_width env a)) <
    toPixelScalar (toUPixelScalar
      (rc.right - rc.left - Draw_label_width env a - env.layout.FastScale 15)))

/-- The altitude part of `Draw`: the arrival altitude in the right upper corner. -/
def Draw_altitude (env : Env) (s : SliderShape) (a : DrawArgs) : List DrawOp :=
  let rc : PixelRect := Draw_rc s a.rc_outer
  let line_one_y_offset : Int := toUPixelScalar (rc.top + s.line_one_y)
  if a.altitude_difference_valid then
    let left : Int := toPixelScalar (toUPixelScalar (rc.right - Draw_height_width env a))
    [DrawOp.SelectFont FontId.small_font] ++
      (if left > 0 then
        [DrawOp.TextAutoClipped TextBuffer.height_buffer left line_one_y_offset
          (Draw_height_buffer env a)]
      else [])
  else []

/-- The type label of `Draw` where it is drawn beside the distance: the calls in the branch
taken when the label fits. -/
def Draw_label (env : Env) (s : SliderShape) (a : DrawArgs) : List DrawOp :=
  let rc : PixelRect := Draw_rc s a.rc_outer
  let line_one_y_offset : Int := toUPixelScalar (rc.top + s.line_one_y)
  if Draw_label_fits env s a then
    let left : Int := rc.left
    [DrawOp.SelectFont FontId.small_font] ++
      (if decide (left > 0) && env.navbar_enable_tp_index then
        [DrawOp.TextAutoClipped TextBuffer.type_buffer left line_one_y_offset
          (Draw_type_buffer env a)]
      else [])
  else []

/-- The value of `left` at which `Draw` draws the distance: `offset` is `rc.left`, or centres
the distance in `rc` when the label fits. -/
def Draw_distance_left (env : Env) (s : SliderShape) (a : DrawArgs) : Int :=
  let rc : PixelRect := Draw_rc s a.rc_outer
  let offset : Int := toUPixelScalar rc.left
  let offset : Int :=
    if Draw_label_fits env s a then
      toUPixelScalar (rc.left +
        toUPixelScalar (rc.right - rc.left - Draw_distance_width env a) / 2)
    else offset
  toPixelScalar offset

/-- The distance string of `Draw`: the calls that draw `distance_buffer`. -/
def Draw_distance_string (env : Env) (s : SliderShape) (a : DrawArgs) : List DrawOp :=
  let rc : PixelRect := Draw_rc s a.rc_outer
  let line_one_y_offset : Int := toUPixelScalar (rc.top + s.line_one_y)
  let left : Int := Draw_distance_left env s a
  [DrawOp.SelectFont FontId.medium_font] ++
    (if left > 0 then
      [DrawOp.TextAutoClipped TextBuffer.distance_buffer left line_one_y_offset
        (Draw_distance_buffer env a)]
    else [])

/-- The bearing icon of `Draw`: `DrawBearing` is called when `do_bearing` holds; otherwise
the direction stays `None`. -/
def Draw_bearing (env : Env) (s : SliderShape) (a : DrawArgs) :
    BearingDirection × List DrawOp :=
  let bearing_direction : BearingDirection := BearingDirection.None
  if Draw_do_bearing a then DrawBearing env s a.rc_outer a.delta_bearing
  else (bearing_direction, [])

/-- The distance part of `Draw` (type label, distance and glide ratio, bearing icon): the
bearing direction afterwards and the canvas calls. -/
def Draw_distance (env : Env) (s : SliderShape) (a : DrawArgs) :
    BearingDirection × List DrawOp :=
  let rc : PixelRect := Draw_rc s a.rc_outer
  let line_one_y_offset : Int := toUPixelScalar (rc.top + s.line_one_y)
  let bearing_direction : BearingDirection := BearingDirection.None
  if a.distance_valid || (a.gr_valid && env.navbar_enable_gr) then
    ((Draw_bearing env s a).1,
      [DrawOp.SelectFont FontId.medium_font] ++ Draw_label env s a ++
        Draw_distance_string env s a ++ (Draw_bearing env s a).2)
  else
    -- just type type label
    (bearing_direction,
      if env.navbar_enable_tp_index then
        [DrawOp.TextAutoClipped TextBuffer.type_buffer rc.left line_one_y_offset
          (Draw_type_buffer env a)]
      else [])

/-- The icon beside the name in `Draw`: checkmark, teammate, target or waypoint icon. -/
def Draw_name_icon (env : Env) (s : SliderShape) (a : DrawArgs) (left_icon : Int)
    (icon : Icon) (icon_size : PixelSize) : List DrawOp :=
  let rc : PixelRect := Draw_rc s a.rc_outer
  let line_two_y_offset : Int := toUPixelScalar (rc.top + s.line_two_y)
  let draw_checkmark : Bool := a.draw_checkmark
  let draw_teammate : Bool := !draw_checkmark && a.is_teammate
  let draw_target : Bool := !draw_checkmark && !draw_teammate && a.is_aat && a.navigate_to_target
  let draw_turnpoint : Bool :=
    !draw_checkmark && !draw_teammate && !draw_target && a.twp.isSome
  let offsety : Int :=
    toPixelScalar (toUPixelScalar
      (if toPixelScalar line_two_y_offset + icon_size.cy ≤ rc.bottom then
        line_two_y_offset
          + toUPixelScalar (rc.bottom - line_two_y_offset - icon_size.cy) / 2
          - env.layout.Scale 1
      else rc.bottom - icon_size.cy - env.layout.Scale 1))
  let upper_left : RasterPoint := ⟨toPixelScalar left_icon, rc.top + offsety⟩
  let lower_right : RasterPoint := ⟨upper_left.x, upper_left.y⟩
  if env.canvas_rect.IsInside upper_left && env.canvas_rect.IsInside lower_right then
    if draw_checkmark then
      [DrawOp.IconDrawUpperLeft icon upper_left]
    else
      let name_height : Int := (env.look.large_font_height : Int) / 2
      let pt : RasterPoint :=
        ⟨upper_left.x, toPixelScalar (toUPixelScalar (upper_left.y + name_height / 2))⟩
      if draw_target || draw_teammate then
        [DrawOp.IconDraw icon pt]
      else if draw_turnpoint then
        match a.twp with
        | some twp =>
          [DrawOp.WaypointIconDraw twp pt
            (a.altitude_difference_valid && decide (a.tp_altitude_difference > 0))]
        | none => []
      else []
  else []

/-- The name part of `Draw`: the name of the turn point and the icon beside it. -/
def Draw_name (env : Env) (s : SliderShape) (a : DrawArgs)
    (bearing_direction : BearingDirection) : List DrawOp :=
  let rc : PixelRect := Draw_rc s a.rc_outer
  let line_two_y_offset : Int := toUPixelScalar (rc.top + s.line_two_y)
  let draw_checkmark : Bool := a.draw_checkmark
  let draw_teammate : Bool := !draw_checkmark && a.is_teammate
  let draw_target : Bool := !draw_checkmark && !draw_teammate && a.is_aat && a.navigate_to_target
  let draw_turnpoint : Bool :=
    !draw_checkmark && !draw_teammate && !draw_target && a.twp.isSome
  let draw_icon : Bool := draw_checkmark || draw_target || draw_turnpoint || draw_teammate
  let icon : Icon :=
    if draw_checkmark then Icon.hBmpCheckMark
    else if draw_teammate then Icon.teammate_icon else Icon.target_icon
  let icon_size : PixelSize := if draw_icon then env.icon_size icon else ⟨0, 0⟩
  let hint : Int := GetHintWidth s.points
  let name_left : Int := toPixelScalar (toUPixelScalar (a.rc_outer.left + hint))
  let name_right : Int := toPixelScalar (toUPixelScalar (a.rc_outer.right - hint))
  let width : Int :=
    toUPixelScalar ((env.CalcTextWidth FontId.large_font a.tp_name : Int) + icon_size.cx)
  let overflow : Bool := decide (toPixelScalar width > name_right - name_left)
  let name_right : Int :=
    if overflow && a.is_current_tp && decide (bearing_direction ≠ BearingDirection.Right) then
      toPixelScalar (toUPixelScalar (name_right + hint / 2))
    else name_right
  let name_right : Int :=
    if overflow && a.is_current_tp && decide (bearing_direction = BearingDirection.Right) then
      name_right - env.layout.Scale 5
    else name_right
  let left_icon : Int :=
    if overflow then toUPixelScalar name_left
    else toUPixelScalar (name_left + toUPixelScalar (name_right - name_left - width) / 2)
  [DrawOp.SelectFont FontId.large_font,
   DrawOp.DrawClippedText TextBuffer.tp_name (toUPixelScalar (left_icon + icon_size.cx))
     line_two_y_offset (name_right - name_left - Int.tdiv icon_size.cx 2) a.tp_name] ++
    (if draw_icon then Draw_name_icon env s a left_icon icon icon_size else [])

/-- The function `SliderShape::Draw`: the canvas calls it issues, in order; `none` when
`DrawOutline` reaches `gcc_unreachable()`. -/
def Draw (env : Env) (s : SliderShape) (a : DrawArgs) : Option (List DrawOp) :=
  let rc : PixelRect := Draw_rc s a.rc_outer
  if !a.tp_valid then
    DrawInvalid env s a.rc_outer rc a.idx a.selected a.use_wide_pen
  else
    match DrawOutline env s a.rc_outer a.use_wide_pen with
    | none => none
    | some (false, outline) =>
      some ([DrawOp.SetTextColor a.selected, DrawOp.SelectBackgroundBrush a.selected] ++ outline)
    | some (true, outline) =>
      let background : List DrawOp :=
        if env.win32 && env.HasDraggableScreen then
          PaintBackground s a.idx (if a.task_mode = TaskType.GOTO then 1 else a.task_size)
            a.rc_outer
        else []
      let distance : BearingDirection × List DrawOp := Draw_distance env s a
      some ([DrawOp.SetTextColor a.selected, DrawOp.SelectBackgroundBrush a.selected] ++ outline ++
        background ++ [DrawOp.SelectFont FontId.small_font] ++ Draw_altitude env s a ++
        distance.2 ++ Draw_name env s a distance.1)

/-! ## `WndButton` (Form/Button.cpp) -/

/-- The key codes `on_key_down` and `on_key_check` tell apart; their values are those of
the platform headers, which are not among the sources. -/
structure KeyCodes where
  VK_RETURN : Nat
  VK_F4 : Nat

/-- A `WndButton`: its caption and the click callback `mOnClickNotify` (a function pointer,
`none` for `NULL`; a callback is named by a number). -/
structure WndButton where
  caption : String
  mOnClickNotify : Option Nat
  deriving DecidableEq, Repr

/-- One call of a click callback: the callback and the button it is called with. -/
structure CallbackCall where
  callback : Nat
  button : WndButton
  deriving DecidableEq, Repr

/-- The function `WndButton::on_clicked()`: the value returned and the callbacks called. -/
def WndButton.on_clicked (b : WndButton) : Bool × List CallbackCall :=
  match b.mOnClickNotify with
  | some f => (true, [⟨f, b⟩])
  | none => (false, [])

/-- The function `WndButton::on_key_check(key_code)`. -/
def WndButton.on_key_check (keys : KeyCodes) (_b : WndButton) (key_code : Nat) : Bool :=
  if key_code = keys.VK_RETURN then true else false

/-- The function `WndButton::on_key_down(key_code)`: the value returned and the callbacks called.
`gnav` says whether `GNAV` is defined, and `base_on_key_down` is
`ButtonWindow::on_key_down`, which is not among the sources. -/
def WndButton.on_key_down (keys : KeyCodes) (gnav : Bool) (base_on_key_down : Nat → Bool)
    (b : WndButton) (key_code : Nat) : Bool × List CallbackCall :=
  if (gnav && decide (key_code = keys.VK_F4)) || decide (key_code = keys.VK_RETURN) then
    b.on_clicked
  else
    (base_on_key_down key_code, [])

/-! ## Examples -/

/-- An environment for examples: a canvas 480 wide and 272 high, icons of 16 by 16, a
font in which every character is 8 wide, no translation, both settings enabled, and
formatters with fixed results; not a Kobo, not Windows. -/
def exampleEnv : Env :=
  { look := exampleLook, layout := exampleLayout, canvas_rect := ⟨0, 0, 480, 272⟩,
    icon_size := fun _ => ⟨16, 16⟩, CalcTextWidth := fun _ t => 8 * t.length,
    gettext := fun t => t, navbar_enable_gr := true, navbar_enable_tp_index := true,
    FormatRelativeUserAltitude := fun _ => "+120 m", FormatUserDistance := fun _ => "12.5 km",
    FormatGR := fun _ => "50", kobo := false, win32 := false, HasDraggableScreen := false }

/-- The example environment with the setting `navbar_enable_tp_index` disabled. -/
def exampleEnvNoIndex : Env := { exampleEnv with navbar_enable_tp_index := false }

/-- The example shape after `Resize(400)`: hint width 20, height 41, right tip at x = 359. -/
def exampleResized : SliderShape := Resize exampleLook exampleLayout exampleShape 400

/-- Arguments for examples: a valid "Goto" entry with a valid distance, and no valid
altitude difference, bearing or glide ratio, in a target rectangle at the left edge of
the canvas. -/
def exampleArgs : DrawArgs :=
  { rc_outer := ⟨0, 0, 360, 42⟩, idx := 0, selected := false, is_current_tp := true,
    tp_name := "HOME", twp := none, has_entered := false, has_exited := false,
    task_mode := TaskType.GOTO, task_factory_type := TaskFactoryType.other 0, task_size := 1,
    tp_valid := true, tp_distance := 12500, distance_valid := true,
    tp_altitude_difference := 0, altitude_difference_valid := false,
    delta_bearing := 0, bearing_valid := false, gradient := 0, gr_valid := false,
    use_wide_pen := false, navigate_to_target := false }

/-- The example arguments with the target rectangle moved 40 to the left, so that the left
tip is off the canvas, and made 40 narrower. -/
def exampleArgsLeft : DrawArgs := { exampleArgs with rc_outer := ⟨-40, 0, 80, 42⟩ }

/-- The example arguments for an entry that is not valid. -/
def exampleArgsInvalid : DrawArgs := { exampleArgs with tp_valid := false }

/-- The example environment with a distance formatter that returns 24 characters. -/
def exampleEnvLong : Env :=
  { exampleEnv with FormatUserDistance := fun _ => "1234567890123456789.5 km" }

/-- The example arguments with a valid glide ratio of 100. -/
def exampleArgsGRHigh : DrawArgs := { exampleArgs with gr_valid := true, gradient := 100 }

/-- The example arguments with a valid glide ratio of 0. -/
def exampleArgsGR : DrawArgs := { exampleArgs with gr_valid := true, gradient := 0 }

/-- The sizes `Draw` compares for the type label are small enough for no 32-bit
computation to wrap: the sides of `rc`, the three text widths and `FastScale(15)` are
below `2^28` in absolute value, and `FastScale(15)` is not negative. -/
def DrawInRange (env : Env) (s : SliderShape) (a : DrawArgs) : Prop :=
  -268435456 < (Draw_rc s a.rc_outer).left ∧ (Draw_rc s a.rc_outer).left < 268435456 ∧
    -268435456 < (Draw_rc s a.rc_outer).right ∧ (Draw_rc s a.rc_outer).right < 268435456 ∧
    Draw_label_width env a < 268435456 ∧ Draw_distance_width env a < 268435456 ∧
    Draw_height_width env a < 268435456 ∧
    0 ≤ env.layout.FastScale 15 ∧ env.layout.FastScale 15 < 268435456

instance (env : Env) (s : SliderShape) (a : DrawArgs) : Decidable (DrawInRange env s a) := by
  unfold DrawInRange; infer_instance

/-- The visibility level `DrawOutline` computes for the target rectangle `rc`. -/
def outlineVisibility (env : Env) (s : SliderShape) (rc : PixelRect) : VisibilityLevel :=
  GetVisibilityLevel env.layout env.canvas_rect ((List.range 8).map (rawVertex s rc))

/-! ## The clamping of `DrawOutline` and the bearing of `Draw`: auxiliary notions -/

/-- `width_offset` of `DrawOutline`: 1 where `KOBO` is defined, 0 elsewhere. -/
def DrawOutline_width_offset (env : Env) : Int := if env.kobo then 1 else 0

/-- `top_line_offset` of `DrawOutline`: 2 where `KOBO` is defined, 1 elsewhere. -/
def DrawOutline_top_line_offset (env : Env) : Int := if env.kobo then 2 else 1

/-- The assertion in the loop of `DrawOutline`, `assert(canvas_rect.IsInside({x, y}))`, for
each of the 8 clamped vertices. -/
def DrawOutline_asserts (env : Env) (s : SliderShape) (rc : PixelRect) (use_wide_pen : Bool) :
    Bool :=
  (List.range 8).all (fun i => env.canvas_rect.IsInside (clampedVertex env s rc use_wide_pen i))

/-- The canvas rectangle is large enough to hold the margins of `DrawOutline`:
`left + w/2 + width_offset ≤ right - w/2 - 1` and `top + top_line_offset ≤ bottom - w/2 - 1`,
with `w` the width of the border pen. -/
def CanvasHoldsMargins (env : Env) (use_wide_pen : Bool) : Prop :=
  env.canvas_rect.left + (env.look.border_pen_width use_wide_pen : Int) / 2
      + DrawOutline_width_offset env ≤
    env.canvas_rect.right - (env.look.border_pen_width use_wide_pen : Int) / 2 - 1 ∧
  env.canvas_rect.top + DrawOutline_top_line_offset env ≤
    env.canvas_rect.bottom - (env.look.border_pen_width use_wide_pen : Int) / 2 - 1

instance (env : Env) (use_wide_pen : Bool) : Decidable (CanvasHoldsMargins env use_wide_pen) := by
  unfold CanvasHoldsMargins; infer_instance

/-- The sides of the canvas rectangle and the width of the border pen are below `2^28` in
absolute value, so that no 32-bit computation of the clamping wraps. -/
def CanvasInRange (env : Env) (use_wide_pen : Bool) : Prop :=
  -268435456 < env.canvas_rect.left ∧ env.canvas_rect.left < 268435456 ∧
    -268435456 < env.canvas_rect.top ∧ env.canvas_rect.top < 268435456 ∧
    -268435456 < env.canvas_rect.right ∧ env.canvas_rect.right < 268435456 ∧
    -268435456 < env.canvas_rect.bottom ∧ env.canvas_rect.bottom < 268435456 ∧
    (env.look.border_pen_width use_wide_pen : Int) < 268435456

instance (env : Env) (use_wide_pen : Bool) : Decidable (CanvasInRange env use_wide_pen) := by
  unfold CanvasInRange; infer_instance

/-- One of the eight bearing icons. -/
def Icon.isBearing : Icon → Bool
  | Icon.hBmpCheckMark => false
  | Icon.teammate_icon => false
  | Icon.target_icon => false
  | _ => true

/-- A call that draws a bearing icon. -/
def DrawOp.isBearingIcon : DrawOp → Bool
  | DrawOp.IconDrawUpperLeft icon _ => icon.isBearing
  | DrawOp.IconDraw icon _ => icon.isBearing
  | _ => false

/-- The bearing of an entry is valid and applicable: the task is not ordered, or the task
is ordered and the entry is the current item with `idx > 0`. -/
def BearingApplicable (a : DrawArgs) : Prop :=
  a.bearing_valid = true ∧
    (a.task_mode ≠ TaskType.ORDERED ∨
      (a.task_mode = TaskType.ORDERED ∧ a.is_current_tp = true ∧ 0 < a.idx))

instance (a : DrawArgs) : Decidable (BearingApplicable a) := by
  unfold BearingApplicable; infer_instance

/-- The example arguments with a valid bearing delta of 25 degrees. -/
def exampleArgsBearing : DrawArgs :=
  { exampleArgs with bearing_valid := true, delta_bearing := 25 }

/-- The example arguments with a valid bearing delta of 25 degrees and no valid
distance. -/
def exampleArgsBearingOnly : DrawArgs :=
  { exampleArgs with bearing_valid := true, delta_bearing := 25, distance_valid := false }

/-! # Theorems -/

/-! ## Machine integers -/

theorem toUPixelScalar_of_range {v : Int} (h0 : 0 ≤ v) (h1 : v < 4294967296) :
    toUPixelScalar v = v := by
  unfold toUPixelScalar; omega

theorem toPixelScalar_of_range {v : Int} (h0 : -2147483648 ≤ v) (h1 : v < 2147483648) :
    toPixelScalar v = v := by
  unfold toPixelScalar; omega

theorem toPixelScalar_toUPixelScalar (v : Int) :
    toPixelScalar (toUPixelScalar v) = toPixelScalar v := by
  unfold toPixelScalar toUPixelScalar; omega

/-! ## `Resize` in closed form -/

theorem exactHint_nonneg (look : NavSliderLook) (layout : Layout) (s : SliderShape) (w : Nat)
    (h : NoWrap look layout s w) : 0 ≤ exactHint look layout s := by
  obtain ⟨h1, h2, h3, h4, h5, h6, h7, h8, h9, h10⟩ := h
  unfold exactHint fontHeight; omega

theorem exactHint_lt (look : NavSliderLook) (layout : Layout) (s : SliderShape) (w : Nat)
    (h : NoWrap look layout s w) : exactHint look layout s < 268435456 := by
  obtain ⟨h1, h2, h3, h4, h5, h6, h7, h8, h9, h10⟩ := h
  unfold exactHint fontHeight; omega

/-- Half the total height is the hint width, whatever the parity of the height. -/
theorem exactHeight_half (look : NavSliderLook) (layout : Layout) (s : SliderShape) :
    exactHeight look layout s / 2 = exactHint look layout s := by
  unfold exactHeight exactHint; omega

/-- Where nothing wraps, `Resize` lays the eight vertices out as follows. -/
theorem Resize_points (look : NavSliderLook) (layout : Layout) (s : SliderShape) (w : Nat)
    (h : NoWrap look layout s w) :
    (Resize look layout s w).points =
      [⟨exactHint look layout s, 0⟩,
       ⟨layout.Scale 360 - exactHint look layout s + exactGrow look layout s w, 0⟩,
       ⟨layout.Scale 360 + exactGrow look layout s w, exactHeight look layout s / 2⟩,
       ⟨layout.Scale 360 + exactGrow look layout s w, exactHeight look layout s / 2⟩,
       ⟨layout.Scale 360 - exactHint look layout s + exactGrow look layout s w,
        exactHeight look layout s⟩,
       ⟨exactHint look layout s, exactHeight look layout s⟩,
       ⟨0, exactHeight look layout s / 2⟩,
       ⟨0, exactHeight look layout s / 2⟩] := by
  have hh0 := exactHint_nonneg look layout s w h
  have hh1 := exactHint_lt look layout s w h
  obtain ⟨h1, h2, h3, h4, h5, h6, h7, h8, h9, h10⟩ := h
  have hc : Int.tdiv s.bearing_icon_size.cx 2 = s.bearing_icon_size.cx / 2 :=
    Int.tdiv_eq_ediv h6 (by norm_num)
  have e1 : toUPixelScalar ((look.large_font_height : Int) + (look.medium_font_height : Int)
      - layout.Scale 2) = (look.large_font_height : Int) + (look.medium_font_height : Int)
      - layout.Scale 2 := toUPixelScalar_of_range (by omega) (by omega)
  have e2 : toUPixelScalar s.bearing_icon_size.cy = s.bearing_icon_size.cy :=
    toUPixelScalar_of_range h8 (by omega)
  have e3 : toUPixelScalar (fontHeight look layout s) = fontHeight look layout s :=
    toUPixelScalar_of_range (by unfold fontHeight; omega) (by unfold fontHeight; omega)
  have e4 : toUPixelScalar (s.bearing_icon_size.cx / 2) = s.bearing_icon_size.cx / 2 :=
    toUPixelScalar_of_range (by omega) (by omega)
  have e5 : toUPixelScalar (exactHint look layout s * 2) = exactHint look layout s * 2 :=
    toUPixelScalar_of_range (by omega) (by omega)
  have e6 : toUPixelScalar (layout.Scale 360) = layout.Scale 360 :=
    toUPixelScalar_of_range h4 (by omega)
  have hH0 : 0 ≤ exactHeight look layout s := by unfold exactHeight; omega
  have hH1 : exactHeight look layout s < 536870912 := by
    unfold exactHeight fontHeight; omega
  have e7 : toUPixelScalar (exactHeight look layout s) = exactHeight look layout s :=
    toUPixelScalar_of_range (by omega) (by omega)
  have e8 : toPixelScalar (exactHint look layout s) = exactHint look layout s :=
    toPixelScalar_of_range (by omega) (by omega)
  have e9 : toPixelScalar (layout.Scale 360 - exactHint look layout s) =
      layout.Scale 360 - exactHint look layout s :=
    toPixelScalar_of_range (by omega) (by omega)
  have e10 : toPixelScalar (layout.Scale 360) = layout.Scale 360 :=
    toPixelScalar_of_range (by omega) (by omega)
  have e11 : toPixelScalar (exactHeight look layout s / 2) = exactHeight look layout s / 2 :=
    toPixelScalar_of_range (by omega) (by omega)
  have e12 : toPixelScalar (exactHeight look layout s) = exactHeight look layout s :=
    toPixelScalar_of_range (by omega) (by omega)
  have e13 : toUPixelScalar (layout.Scale 360 - (layout.Scale 360 - exactHint look layout s)) =
      exactHint look layout s := by
    rw [toUPixelScalar_of_range (by omega) (by omega)]; omega
  have e14 : toPixelScalar ((w : Int) - exactHint look layout s * 2 - layout.Scale 360 - 1) =
      (w : Int) - exactHint look layout s * 2 - layout.Scale 360 - 1 :=
    toPixelScalar_of_range (by omega) (by omega)
  have e15 : exactHint look layout s - (layout.Scale 360 - exactHint look layout s) =
      exactHint look layout s * 2 - layout.Scale 360 := by omega
  have e16 : (if (w : Int) - exactHint look layout s * 2 - layout.Scale 360 - 1 <
      exactHint look layout s * 2 - layout.Scale 360
      then exactHint look layout s * 2 - layout.Scale 360
      else (w : Int) - exactHint look layout s * 2 - layout.Scale 360 - 1) =
      exactGrow look layout s w := by
    unfold exactGrow; split <;> omega
  have f1 : max ((look.large_font_height : Int) + (look.medium_font_height : Int)
      - layout.Scale 2) s.bearing_icon_size.cy = fontHeight look layout s := rfl
  have f2 : max (fontHeight look layout s / 2) (s.bearing_icon_size.cx / 2) =
      exactHint look layout s := rfl
  have f3 : max (fontHeight look layout s) (exactHint look layout s * 2) =
      exactHeight look layout s := rfl
  simp only [Resize, growPoint, GetPoint, GetHintWidth, List.foldl, List.set,
    List.getD_cons_zero, List.getD_cons_succ, hc, sub_zero, add_zero, e1, e2]
  simp only [f1, e3, e4]
  simp only [f2, e5]
  simp only [f3, e6, e7, toPixelScalar_toUPixelScalar, e8, e9, e10, e11, e12, e13, e14, e15]
  simp only [e16]

/-- Where nothing wraps, the hint width after `Resize` is the exact hint width. -/
theorem hintWidth_eq (look : NavSliderLook) (layout : Layout) (s : SliderShape) (w : Nat)
    (h : NoWrap look layout s w) : hintWidth look layout s w = exactHint look layout s := by
  have hh0 := exactHint_nonneg look layout s w h
  have hh1 := exactHint_lt look layout s w h
  simp only [hintWidth, GetHintWidth, Resize_points look layout s w h, GetPoint,
    List.getD_cons_zero, List.getD_cons_succ]
  rw [toUPixelScalar_of_range (by omega) (by omega)]; omega

/-- Where nothing wraps, the x coordinates after `Resize`. -/
theorem pointX_eq (look : NavSliderLook) (layout : Layout) (s : SliderShape) (w : Nat)
    (h : NoWrap look layout s w) :
    pointX look layout s w 0 = exactHint look layout s ∧
    pointX look layout s w 1 =
      layout.Scale 360 - exactHint look layout s + exactGrow look layout s w ∧
    pointX look layout s w 2 = layout.Scale 360 + exactGrow look layout s w ∧
    pointX look layout s w 3 = layout.Scale 360 + exactGrow look layout s w ∧
    pointX look layout s w 4 =
      layout.Scale 360 - exactHint look layout s + exactGrow look layout s w ∧
    pointX look layout s w 5 = exactHint look layout s ∧
    pointX look layout s w 6 = 0 ∧
    pointX look layout s w 7 = 0 := by
  simp [pointX, Resize_points look layout s w h, GetPoint]

/-- Where nothing wraps, the y coordinates after `Resize`. -/
theorem pointY_eq (look : NavSliderLook) (layout : Layout) (s : SliderShape) (w : Nat)
    (h : NoWrap look layout s w) :
    pointY look layout s w 0 = 0 ∧
    pointY look layout s w 1 = 0 ∧
    pointY look layout s w 2 = exactHint look layout s ∧
    pointY look layout s w 3 = exactHint look layout s ∧
    pointY look layout s w 4 = exactHeight look layout s ∧
    pointY look layout s w 5 = exactHeight look layout s ∧
    pointY look layout s w 6 = exactHint look layout s ∧
    pointY look layout s w 7 = exactHint look layout s := by
  simp [pointY, Resize_points look layout s w h, GetPoint, exactHeight_half]

/-! ## Claims about `Resize` -/

/-- C1 (as amended): for any two available widths, with fonts, bearing-icon size and layout
scale held fixed and nothing wrapping, `Resize` leaves the hint width, the left tip points
(6 and 7) in x and y and the right tip points (2 and 3) in y the same; the x coordinate of
the right tip points 2 and 3 is `max (w - 2 * hint - 1) (2 * hint)`, so it is the same for the
two widths exactly when the widths are equal or both are at most `4 * hint + 1`. -/
theorem Resize_tip_points (look : NavSliderLook) (layout : Layout) (s : SliderShape)
    (w1 w2 : Nat) (h1 : NoWrap look layout s w1) (h2 : NoWrap look layout s w2) :
    hintWidth look layout s w1 = hintWidth look layout s w2 ∧
    pointX look layout s w1 6 = pointX look layout s w2 6 ∧
    pointY look layout s w1 6 = pointY look layout s w2 6 ∧
    pointX look layout s w1 7 = pointX look layout s w2 7 ∧
    pointY look layout s w1 7 = pointY look layout s w2 7 ∧
    pointY look layout s w1 2 = pointY look layout s w2 2 ∧
    pointY look layout s w1 3 = pointY look layout s w2 3 ∧
    pointX look layout s w1 2 =
      max ((w1 : Int) - 2 * hintWidth look layout s w1 - 1) (2 * hintWidth look layout s w1) ∧
    pointX look layout s w2 2 =
      max ((w2 : Int) - 2 * hintWidth look layout s w2 - 1) (2 * hintWidth look layout s w2) ∧
    pointX look layout s w1 3 = pointX look layout s w1 2 ∧
    pointX look layout s w2 3 = pointX look layout s w2 2 ∧
    (pointX look layout s w1 2 = pointX look layout s w2 2 ↔
      (w1 = w2 ∨ ((w1 : Int) ≤ 4 * hintWidth look layout s w1 + 1 ∧
        (w2 : Int) ≤ 4 * hintWidth look layout s w1 + 1))) := by
  obtain ⟨a0, a1, a2, a3, a4, a5, a6, a7⟩ := pointX_eq look layout s w1 h1
  obtain ⟨b0, b1, b2, b3, b4, b5, b6, b7⟩ := pointX_eq look layout s w2 h2
  obtain ⟨c0, c1, c2, c3, c4, c5, c6, c7⟩ := pointY_eq look layout s w1 h1
  obtain ⟨d0, d1, d2, d3, d4, d5, d6, d7⟩ := pointY_eq look layout s w2 h2
  simp only [hintWidth_eq look layout s w1 h1, hintWidth_eq look layout s w2 h2,
    a2, a3, a6, a7, b2, b3, b6, b7, c2, c3, c6, c7, d2, d3, d6, d7, exactGrow, true_and]
  clear a0 a1 a2 a3 a4 a5 a6 a7 b0 b1 b2 b3 b4 b5 b6 b7 c0 c1 c2 c3 c4 c5 c6 c7
    d0 d1 d2 d3 d4 d5 d6 d7 h1 h2
  refine ⟨?_, ?_, ?_⟩ <;> omega

/-- C1, witness: the example shape at the widths 100 and 500. -/
theorem Resize_tip_points_witness :
    pointX exampleLook exampleLayout exampleShape 100 6 =
      pointX exampleLook exampleLayout exampleShape 500 6 ∧
    pointX exampleLook exampleLayout exampleShape 500 2 = 459 :=
  have h := Resize_tip_points exampleLook exampleLayout exampleShape 100 500
    (by decide) (by decide)
  ⟨h.2.1, by decide⟩

/-- C1, counterexample: the widths 100 and 500 are both at least twice the hint width 20,
and `Resize` puts the tip points 2 and 3 at x = 59 for the one and at x = 459 for the
other. -/
theorem Resize_tip_points_counterexample :
    2 * hintWidth exampleLook exampleLayout exampleShape 100 ≤ 100 ∧
    2 * hintWidth exampleLook exampleLayout exampleShape 500 ≤ 500 ∧
    pointX exampleLook exampleLayout exampleShape 100 2 = 59 ∧
    pointX exampleLook exampleLayout exampleShape 500 2 = 459 ∧
    pointX exampleLook exampleLayout exampleShape 100 3 = 59 ∧
    pointX exampleLook exampleLayout exampleShape 500 3 = 459 := by
  decide

/-- C2 (as amended): for available widths `w1 < w2`, with fonts, bearing-icon size and layout
scale held fixed and nothing wrapping, the x coordinate of each of the points 1, 2, 3 and 4
after `Resize(w2)` is at least its x coordinate after `Resize(w1)`, and it is strictly
greater exactly when `w2` exceeds `4 * hint + 1`. -/
theorem Resize_interior_monotone (look : NavSliderLook) (layout : Layout) (s : SliderShape)
    (w1 w2 : Nat) (h1 : NoWrap look layout s w1) (h2 : NoWrap look layout s w2)
    (hlt : w1 < w2) (i : Nat) (hi : i = 1 ∨ i = 2 ∨ i = 3 ∨ i = 4) :
    pointX look layout s w1 i ≤ pointX look layout s w2 i ∧
    (pointX look layout s w1 i < pointX look layout s w2 i ↔
      4 * hintWidth look layout s w2 + 1 < (w2 : Int)) := by
  obtain ⟨a0, a1, a2, a3, a4, a5, a6, a7⟩ := pointX_eq look layout s w1 h1
  obtain ⟨b0, b1, b2, b3, b4, b5, b6, b7⟩ := pointX_eq look layout s w2 h2
  rcases hi with rfl | rfl | rfl | rfl <;>
    simp only [hintWidth_eq look layout s w2 h2, a1, b1, a2, b2, a3, b3, a4, b4, exactGrow] <;>
    clear a0 a1 a2 a3 a4 a5 a6 a7 b0 b1 b2 b3 b4 b5 b6 b7 h1 h2 <;>
    omega

/-- C2, witness: the example shape at the widths 100 and 500, vertex 1. -/
theorem Resize_interior_monotone_witness :
    pointX exampleLook exampleLayout exampleShape 100 1 ≤
      pointX exampleLook exampleLayout exampleShape 500 1 ∧
    (pointX exampleLook exampleLayout exampleShape 100 1 <
      pointX exampleLook exampleLayout exampleShape 500 1 ↔
      4 * hintWidth exampleLook exampleLayout exampleShape 500 + 1 < ((500 : Nat) : Int)) :=
  Resize_interior_monotone exampleLook exampleLayout exampleShape 100 500
    (by decide) (by decide) (by decide) 1 (Or.inl rfl)

/-- C2, counterexample: the widths 40 < 41 are both at least twice the hint width 20, and
the points 1, 2, 3 and 4 have the same x coordinates after `Resize(40)` and `Resize(41)`. -/
theorem Resize_interior_monotone_counterexample :
    2 * hintWidth exampleLook exampleLayout exampleShape 40 ≤ 40 ∧
    2 * hintWidth exampleLook exampleLayout exampleShape 41 ≤ 41 ∧
    ¬ (pointX exampleLook exampleLayout exampleShape 40 1 <
      pointX exampleLook exampleLayout exampleShape 41 1) ∧
    ¬ (pointX exampleLook exampleLayout exampleShape 40 2 <
      pointX exampleLook exampleLayout exampleShape 41 2) ∧
    ¬ (pointX exampleLook exampleLayout exampleShape 40 3 <
      pointX exampleLook exampleLayout exampleShape 41 3) ∧
    ¬ (pointX exampleLook exampleLayout exampleShape 40 4 <
      pointX exampleLook exampleLayout exampleShape 41 4) := by
  decide

/-- C10 (as amended): for every available width, font heights, bearing-icon size and layout
scale with nothing wrapping (in particular large + medium font height at least `Scale(2)`),
after `Resize` the two upper slanted edges (points 1-2 and 7-0) have a horizontal extent
equal to their vertical extent, both being the hint width; the two lower slanted edges
(points 3-4 and 5-6) have the hint width as horizontal extent and the total height minus
the hint width as vertical extent; and the total height is twice the hint width or twice
the hint width plus one, the latter exactly when the height the fonts and the icon ask for
is odd and its half is at least half the icon width. -/
theorem Resize_tip_slopes (look : NavSliderLook) (layout : Layout) (s : SliderShape) (w : Nat)
    (h : NoWrap look layout s w) :
    pointX look layout s w 2 - pointX look layout s w 1 = hintWidth look layout s w ∧
    pointY look layout s w 2 - pointY look layout s w 1 = hintWidth look layout s w ∧
    pointX look layout s w 0 - pointX look layout s w 7 = hintWidth look layout s w ∧
    pointY look layout s w 7 - pointY look layout s w 0 = hintWidth look layout s w ∧
    pointX look layout s w 3 - pointX look layout s w 4 = hintWidth look layout s w ∧
    pointY look layout s w 4 - pointY look layout s w 3 =
      totalHeight look layout s w - hintWidth look layout s w ∧
    pointX look layout s w 5 - pointX look layout s w 6 = hintWidth look layout s w ∧
    pointY look layout s w 5 - pointY look layout s w 6 =
      totalHeight look layout s w - hintWidth look layout s w ∧
    (totalHeight look layout s w = 2 * hintWidth look layout s w ∨
      totalHeight look layout s w = 2 * hintWidth look layout s w + 1) ∧
    (totalHeight look layout s w = 2 * hintWidth look layout s w + 1 ↔
      fontHeight look layout s % 2 = 1 ∧
        s.bearing_icon_size.cx / 2 ≤ fontHeight look layout s / 2) := by
  obtain ⟨a0, a1, a2, a3, a4, a5, a6, a7⟩ := pointX_eq look layout s w h
  obtain ⟨c0, c1, c2, c3, c4, c5, c6, c7⟩ := pointY_eq look layout s w h
  simp only [hintWidth_eq look layout s w h, totalHeight, a0, a1, a2, a3, a4, a5, a6, a7,
    c0, c1, c2, c3, c4, c5, c6, c7]
  clear a0 a1 a2 a3 a4 a5 a6 a7 c0 c1 c2 c3 c4 c5 c6 c7 h
  unfold exactHeight exactHint
  refine ⟨?_, ?_, ?_, ?_, ?_, ?_, ?_, ?_, ?_, ?_⟩ <;> first | trivial | omega

/-- C10, witness: the example shape at the width 500. -/
theorem Resize_tip_slopes_witness :
    pointX exampleLook exampleLayout exampleShape 500 2 -
      pointX exampleLook exampleLayout exampleShape 500 1 =
      hintWidth exampleLook exampleLayout exampleShape 500 ∧
    pointY exampleLook exampleLayout exampleShape 500 2 -
      pointY exampleLook exampleLayout exampleShape 500 1 =
      hintWidth exampleLook exampleLayout exampleShape 500 :=
  have h := Resize_tip_slopes exampleLook exampleLayout exampleShape 500 (by decide)
  ⟨h.1, h.2.1⟩

/-- C10, counterexample: with a large font of height 22, a medium font of height 21 and
`Scale(2) = 2` the total height is 41 and the hint width 20: the height is not twice the
hint width, and the lower slanted edge 3-4 is 20 wide and 21 high. -/
theorem Resize_tip_slopes_counterexample :
    exampleLayout.Scale 2 ≤
      (exampleLook.large_font_height : Int) + (exampleLook.medium_font_height : Int) ∧
    hintWidth exampleLook exampleLayout exampleShape 500 = 20 ∧
    totalHeight exampleLook exampleLayout exampleShape 500 = 41 ∧
    totalHeight exampleLook exampleLayout exampleShape 500 ≠
      2 * hintWidth exampleLook exampleLayout exampleShape 500 ∧
    pointX exampleLook exampleLayout exampleShape 500 3 -
      pointX exampleLook exampleLayout exampleShape 500 4 = 20 ∧
    pointY exampleLook exampleLayout exampleShape 500 4 -
      pointY exampleLook exampleLayout exampleShape 500 3 = 21 := by
  decide

/-! ## `GetVisibilityLevel` under horizontal reflection -/

/-- A reflected point is inside the reflected rectangle exactly when the point is inside the
rectangle. -/
theorem IsInside_reflect (c : Int) (rc : PixelRect) (pt : RasterPoint) :
    (reflectRect c rc).IsInside (reflectPoint c pt) = rc.IsInside pt := by
  rw [Bool.eq_iff_iff]
  simp only [PixelRect.IsInside, reflectRect, reflectPoint, Bool.and_eq_true, decide_eq_true_eq]
  omega

theorem GetPoint_reflectPoly (c : Int) (poly : List RasterPoint) (i : Nat) (hi : i < 8) :
    GetPoint (reflectPoly c poly) i = reflectPoint c (GetPoint poly (mirrorIndex i)) := by
  interval_cases i <;> rfl

/-- The visibility level of the reflected polygon in the reflected rectangle, in terms of
the polygon and the rectangle themselves. -/
theorem GetVisibilityLevel_reflectPoly (layout : Layout) (rc : PixelRect)
    (poly : List RasterPoint) (c : Int) :
    GetVisibilityLevel layout (reflectRect c rc) (reflectPoly c poly) =
      if rc.IsInside (GetPoint poly 2) && rc.IsInside (GetPoint poly 7) then
        VisibilityLevel.Full
      else if rc.IsInside (GetPoint poly 2) then
        if rc.IsInside (shiftX (GetPoint poly 4) (-layout.Scale 1)) then
          VisibilityLevel.LeftTipAndBody
        else VisibilityLevel.LeftTip
      else if rc.IsInside (GetPoint poly 7) then
        if rc.IsInside (shiftX (GetPoint poly 0) (layout.Scale 1)) then
          VisibilityLevel.RightTipAndBody
        else VisibilityLevel.RightTip
      else VisibilityLevel.NotVisible := by
  have e5 : (⟨(reflectPoint c (GetPoint poly 4)).x + layout.Scale 1,
      (reflectPoint c (GetPoint poly 4)).y⟩ : RasterPoint) =
      reflectPoint c (shiftX (GetPoint poly 4) (-layout.Scale 1)) := by
    simp only [reflectPoint, shiftX, RasterPoint.mk.injEq, and_true]; omega
  have e1 : (⟨(reflectPoint c (GetPoint poly 0)).x - layout.Scale 1,
      (reflectPoint c (GetPoint poly 0)).y⟩ : RasterPoint) =
      reflectPoint c (shiftX (GetPoint poly 0) (layout.Scale 1)) := by
    simp only [reflectPoint, shiftX, RasterPoint.mk.injEq, and_true]; omega
  simp only [GetVisibilityLevel, GetPoint_reflectPoly c poly 7 (by decide),
    GetPoint_reflectPoly c poly 5 (by decide), GetPoint_reflectPoly c poly 2 (by decide),
    GetPoint_reflectPoly c poly 1 (by decide), mirrorIndex, e5, e1, IsInside_reflect]

/-- C3 (as amended): for every clip rectangle and every 8-point polygon, reflecting both
horizontally (the rectangle onto the rectangle of the reflected points, the vertex roles
mirrored 7-2, 6-3, 0-1, 5-4) leaves `Full` and `NotVisible` unchanged and turns a left
result (`LeftTip` or `LeftTipAndBody`) into a right result (`RightTip` or
`RightTipAndBody`) and a right result into a left one.  Whether the body is reported is
kept as well, so that the result is exactly the side-swapped one, when the top and the
bottom body vertex of each side agree on lying inside the rectangle (vertex 0 with vertex
5 moved right by `Scale(1)`, vertex 1 with vertex 4 moved left by `Scale(1)`). -/
theorem GetVisibilityLevel_reflect (layout : Layout) (rc : PixelRect) (poly : List RasterPoint)
    (c : Int) :
    (GetVisibilityLevel layout rc poly = VisibilityLevel.Full ↔
      GetVisibilityLevel layout (reflectRect c rc) (reflectPoly c poly) =
        VisibilityLevel.Full) ∧
    (GetVisibilityLevel layout rc poly = VisibilityLevel.NotVisible ↔
      GetVisibilityLevel layout (reflectRect c rc) (reflectPoly c poly) =
        VisibilityLevel.NotVisible) ∧
    ((GetVisibilityLevel layout rc poly = VisibilityLevel.LeftTip ∨
        GetVisibilityLevel layout rc poly = VisibilityLevel.LeftTipAndBody) ↔
      (GetVisibilityLevel layout (reflectRect c rc) (reflectPoly c poly) =
          VisibilityLevel.RightTip ∨
        GetVisibilityLevel layout (reflectRect c rc) (reflectPoly c poly) =
          VisibilityLevel.RightTipAndBody)) ∧
    ((GetVisibilityLevel layout rc poly = VisibilityLevel.RightTip ∨
        GetVisibilityLevel layout rc poly = VisibilityLevel.RightTipAndBody) ↔
      (GetVisibilityLevel layout (reflectRect c rc) (reflectPoly c poly) =
          VisibilityLevel.LeftTip ∨
        GetVisibilityLevel layout (reflectRect c rc) (reflectPoly c poly) =
          VisibilityLevel.LeftTipAndBody)) ∧
    (rc.IsInside (shiftX (GetPoint poly 0) (layout.Scale 1)) =
        rc.IsInside (shiftX (GetPoint poly 5) (layout.Scale 1)) ∧
      rc.IsInside (shiftX (GetPoint poly 1) (-layout.Scale 1)) =
        rc.IsInside (shiftX (GetPoint poly 4) (-layout.Scale 1)) →
      GetVisibilityLevel layout (reflectRect c rc) (reflectPoly c poly) =
        swapSides (GetVisibilityLevel layout rc poly)) := by
  have e5 : (⟨(GetPoint poly 5).x + layout.Scale 1, (GetPoint poly 5).y⟩ :
      RasterPoint) = shiftX (GetPoint poly 5) (layout.Scale 1) := rfl
  have e1 : (⟨(GetPoint poly 1).x - layout.Scale 1, (GetPoint poly 1).y⟩ :
      RasterPoint) = shiftX (GetPoint poly 1) (-layout.Scale 1) := by
    simp only [shiftX, RasterPoint.mk.injEq, and_true]; omega
  rw [GetVisibilityLevel_reflectPoly]
  simp only [GetVisibilityLevel, e5, e1]
  generalize rc.IsInside (GetPoint poly 7) = lt
  generalize rc.IsInside (GetPoint poly 2) = rt
  generalize rc.IsInside (shiftX (GetPoint poly 5) (layout.Scale 1)) = lb
  generalize rc.IsInside (shiftX (GetPoint poly 1) (-layout.Scale 1)) = rb
  generalize rc.IsInside (shiftX (GetPoint poly 0) (layout.Scale 1)) = lb0
  generalize rc.IsInside (shiftX (GetPoint poly 4) (-layout.Scale 1)) = rb4
  cases lt <;> cases rt <;> cases lb <;> cases rb <;> cases lb0 <;> cases rb4 <;>
    simp [swapSides]

/-- C3, witness: the shape of hint width 5 and height 10, moved 10 to the left, on a canvas
100 wide and 11 high; the left tip is outside, the right tip and body are inside, and the
mirror image shows its left tip and body. -/
theorem GetVisibilityLevel_reflect_witness :
    GetVisibilityLevel exampleLayout ⟨0, 0, 100, 11⟩
      [⟨-5, 0⟩, ⟨30, 0⟩, ⟨35, 5⟩, ⟨35, 5⟩, ⟨30, 10⟩, ⟨-5, 10⟩, ⟨-10, 5⟩, ⟨-10, 5⟩] =
      VisibilityLevel.RightTipAndBody ∧
    GetVisibilityLevel exampleLayout (reflectRect 99 ⟨0, 0, 100, 11⟩)
      (reflectPoly 99
        [⟨-5, 0⟩, ⟨30, 0⟩, ⟨35, 5⟩, ⟨35, 5⟩, ⟨30, 10⟩, ⟨-5, 10⟩, ⟨-10, 5⟩, ⟨-10, 5⟩]) =
      swapSides (GetVisibilityLevel exampleLayout ⟨0, 0, 100, 11⟩
        [⟨-5, 0⟩, ⟨30, 0⟩, ⟨35, 5⟩, ⟨35, 5⟩, ⟨30, 10⟩, ⟨-5, 10⟩, ⟨-10, 5⟩, ⟨-10, 5⟩]) :=
  ⟨by decide,
   (GetVisibilityLevel_reflect exampleLayout ⟨0, 0, 100, 11⟩
      [⟨-5, 0⟩, ⟨30, 0⟩, ⟨35, 5⟩, ⟨35, 5⟩, ⟨30, 10⟩, ⟨-5, 10⟩, ⟨-10, 5⟩, ⟨-10, 5⟩] 99).2.2.2.2
      ⟨by decide, by decide⟩⟩

/-- C3, counterexample: the same shape on a canvas 100 wide and only 10 high.  The right
tip and the body vertex 1 (on the top edge) are inside, so the level is `RightTipAndBody`;
in the mirror image the left tip is inside but the body vertex 5 (on the bottom edge,
y = 10) is not, so the level is `LeftTip` and not `LeftTipAndBody`. -/
theorem GetVisibilityLevel_reflect_counterexample :
    GetVisibilityLevel exampleLayout ⟨0, 0, 100, 10⟩
      [⟨-5, 0⟩, ⟨30, 0⟩, ⟨35, 5⟩, ⟨35, 5⟩, ⟨30, 10⟩, ⟨-5, 10⟩, ⟨-10, 5⟩, ⟨-10, 5⟩] =
      VisibilityLevel.RightTipAndBody ∧
    reflectRect 99 ⟨0, 0, 100, 10⟩ = ⟨0, 0, 100, 10⟩ ∧
    reflectPoly 99
      [⟨-5, 0⟩, ⟨30, 0⟩, ⟨35, 5⟩, ⟨35, 5⟩, ⟨30, 10⟩, ⟨-5, 10⟩, ⟨-10, 5⟩, ⟨-10, 5⟩] =
      [⟨69, 0⟩, ⟨104, 0⟩, ⟨109, 5⟩, ⟨109, 5⟩, ⟨104, 10⟩, ⟨69, 10⟩, ⟨64, 5⟩, ⟨64, 5⟩] ∧
    GetVisibilityLevel exampleLayout (reflectRect 99 ⟨0, 0, 100, 10⟩)
      (reflectPoly 99
        [⟨-5, 0⟩, ⟨30, 0⟩, ⟨35, 5⟩, ⟨35, 5⟩, ⟨30, 10⟩, ⟨-5, 10⟩, ⟨-10, 5⟩, ⟨-10, 5⟩]) =
      VisibilityLevel.LeftTip := by
  decide

/-! ## `DrawBearing` -/

/-- The choice of `DrawBearing`, by the range of the bearing. -/
theorem DrawBearing_select_eq (d : ℚ) :
    DrawBearing_select d =
      if 30 < d then (some Icon.hBmpBearingRightFour, BearingDirection.Right)
      else if 20 < d then (some Icon.hBmpBearingRightThree, BearingDirection.Right)
      else if 10 < d then (some Icon.hBmpBearingRightTwo, BearingDirection.Right)
      else if 2 < d then (some Icon.hBmpBearingRightOne, BearingDirection.Right)
      else if d < -30 then (some Icon.hBmpBearingLeftFour, BearingDirection.Left)
      else if d < -20 then (some Icon.hBmpBearingLeftThree, BearingDirection.Left)
      else if d < -10 then (some Icon.hBmpBearingLeftTwo, BearingDirection.Left)
      else if d < -2 then (some Icon.hBmpBearingLeftOne, BearingDirection.Left)
      else (none, BearingDirection.None) := by
  simp only [DrawBearing_select, gt_iff_lt]
  split_ifs <;> first | rfl | (exfalso; linarith)

/-- The direction `DrawBearing` returns is the one chosen in its first half. -/
theorem DrawBearing_direction (env : Env) (s : SliderShape) (rc_outer : PixelRect) (d : ℚ) :
    (DrawBearing env s rc_outer d).1 = (DrawBearing_select d).2 := by
  unfold DrawBearing
  split
  · next h => rw [h]
  · next h => rw [h]
  · next h => rw [h]; dsimp only; split_ifs <;> rfl

/-- The calls of `DrawBearing`: nothing, or the chosen icon drawn once. -/
theorem DrawBearing_ops (env : Env) (s : SliderShape) (rc_outer : PixelRect) (d : ℚ) :
    (DrawBearing env s rc_outer d).2 = [] ∨
      ∃ icon pt, (DrawBearing_select d).1 = some icon ∧
        (DrawBearing env s rc_outer d).2 = [DrawOp.IconDrawUpperLeft icon pt] := by
  unfold DrawBearing
  split
  · exact Or.inl rfl
  · exact Or.inl rfl
  · next icon dir _ h =>
    rw [h]
    dsimp only
    split_ifs <;> first | exact Or.inl rfl | exact Or.inr ⟨icon, _, rfl, rfl⟩

/-- The direction chosen by `DrawBearing`, by the range of the bearing. -/
theorem DrawBearing_select_direction (d : ℚ) :
    (DrawBearing_select d).2 =
      if 2 < d then BearingDirection.Right
      else if d < -2 then BearingDirection.Left else BearingDirection.None := by
  rw [DrawBearing_select_eq]
  split_ifs <;> first | rfl | (exfalso; linarith)

/-- C4: for every bearing delta `d` in degrees, `DrawBearing` selects no icon and the
direction `None` when `-2 ≤ d ≤ 2`; the right icon of tier one when `2 < d ≤ 10`, of tier
two when `10 < d ≤ 20`, of tier three when `20 < d ≤ 30`, of tier four when `d > 30`; the left
icon of the same tier for the mirrored negative ranges.  In particular `d = 1` gives no
icon, `d = 5` the tier-one right icon, `d = 25` the tier-three right icon and `d = -35` the
tier-four left icon.  The returned direction is `Right` exactly when `d > 2` and `Left`
exactly when `d < -2`, and the only icon `DrawBearing` draws is the selected one. -/
theorem DrawBearing_tiers (env : Env) (s : SliderShape) (rc_outer : PixelRect) (d : ℚ) :
    (-2 ≤ d ∧ d ≤ 2 → DrawBearing_select d = (none, BearingDirection.None)) ∧
    (2 < d ∧ d ≤ 10 →
      DrawBearing_select d = (some Icon.hBmpBearingRightOne, BearingDirection.Right)) ∧
    (10 < d ∧ d ≤ 20 →
      DrawBearing_select d = (some Icon.hBmpBearingRightTwo, BearingDirection.Right)) ∧
    (20 < d ∧ d ≤ 30 →
      DrawBearing_select d = (some Icon.hBmpBearingRightThree, BearingDirection.Right)) ∧
    (30 < d →
      DrawBearing_select d = (some Icon.hBmpBearingRightFour, BearingDirection.Right)) ∧
    (-10 ≤ d ∧ d < -2 →
      DrawBearing_select d = (some Icon.hBmpBearingLeftOne, BearingDirection.Left)) ∧
    (-20 ≤ d ∧ d < -10 →
      DrawBearing_select d = (some Icon.hBmpBearingLeftTwo, BearingDirection.Left)) ∧
    (-30 ≤ d ∧ d < -20 →
      DrawBearing_select d = (some Icon.hBmpBearingLeftThree, BearingDirection.Left)) ∧
    (d < -30 →
      DrawBearing_select d = (some Icon.hBmpBearingLeftFour, BearingDirection.Left)) ∧
    DrawBearing_select 1 = (none, BearingDirection.None) ∧
    DrawBearing_select 5 = (some Icon.hBmpBearingRightOne, BearingDirection.Right) ∧
    DrawBearing_select 25 = (some Icon.hBmpBearingRightThree, BearingDirection.Right) ∧
    DrawBearing_select (-35) = (some Icon.hBmpBearingLeftFour, BearingDirection.Left) ∧
    ((DrawBearing env s rc_outer d).1 = BearingDirection.Right ↔ 2 < d) ∧
    ((DrawBearing env s rc_outer d).1 = BearingDirection.Left ↔ d < -2) ∧
    ((DrawBearing env s rc_outer d).1 = BearingDirection.None ↔ -2 ≤ d ∧ d ≤ 2) ∧
    (∀ op ∈ (DrawBearing env s rc_outer d).2,
      ∃ icon pt, (DrawBearing_select d).1 = some icon ∧ op = DrawOp.IconDrawUpperLeft icon pt) := by
  refine ⟨?_, ?_, ?_, ?_, ?_, ?_, ?_, ?_, ?_, ?_, ?_, ?_, ?_, ?_, ?_, ?_, ?_⟩
  · rintro ⟨h1, h2⟩
    rw [DrawBearing_select_eq]; split_ifs <;> first | rfl | (exfalso; linarith)
  · rintro ⟨h1, h2⟩
    rw [DrawBearing_select_eq]; split_ifs <;> first | rfl | (exfalso; linarith)
  · rintro ⟨h1, h2⟩
    rw [DrawBearing_select_eq]; split_ifs <;> first | rfl | (exfalso; linarith)
  · rintro ⟨h1, h2⟩
    rw [DrawBearing_select_eq]; split_ifs <;> first | rfl | (exfalso; linarith)
  · intro h1
    rw [DrawBearing_select_eq, if_pos h1]
  · rintro ⟨h1, h2⟩
    rw [DrawBearing_select_eq]; split_ifs <;> first | rfl | (exfalso; linarith)
  · rintro ⟨h1, h2⟩
    rw [DrawBearing_select_eq]; split_ifs <;> first | rfl | (exfalso; linarith)
  · rintro ⟨h1, h2⟩
    rw [DrawBearing_select_eq]; split_ifs <;> first | rfl | (exfalso; linarith)
  · intro h1
    rw [DrawBearing_select_eq]; split_ifs <;> first | rfl | (exfalso; linarith)
  · rw [DrawBearing_select_eq]; norm_num
  · rw [DrawBearing_select_eq]; norm_num
  · rw [DrawBearing_select_eq]; norm_num
  · rw [DrawBearing_select_eq]; norm_num
  · rw [DrawBearing_direction, DrawBearing_select_direction]
    split_ifs with h1 h2
    · simp [h1]
    · simp [h1]
    · simp [h1]
  · rw [DrawBearing_direction, DrawBearing_select_direction]
    split_ifs with h1 h2
    · constructor
      · intro h; cases h
      · intro h; linarith
    · simp [h2]
    · simp [h2]
  · rw [DrawBearing_direction, DrawBearing_select_direction]
    split_ifs with h1 h2
    · constructor
      · intro h; cases h
      · rintro ⟨_, h⟩; linarith
    · constructor
      · intro h; cases h
      · rintro ⟨h, _⟩; linarith
    · constructor
      · intro _; constructor <;> linarith
      · intro _; rfl
  · intro op hop
    rcases DrawBearing_ops env s rc_outer d with h | ⟨icon, pt, h1, h2⟩
    · rw [h] at hop; simp at hop
    · rw [h2] at hop
      exact ⟨icon, pt, h1, by simpa using hop⟩

/-- C4, witness: at `d = 5` the tier-one right icon is selected. -/
theorem DrawBearing_tiers_witness :
    DrawBearing_select 5 = (some Icon.hBmpBearingRightOne, BearingDirection.Right) :=
  (DrawBearing_tiers exampleEnv exampleResized ⟨0, 0, 360, 42⟩ 5).2.1
    ⟨by norm_num, by norm_num⟩

/-! ## `DrawOutline` -/

theorem GetPoint_map_range (f : Nat → RasterPoint) (i : Nat) (hi : i < 8) :
    GetPoint ((List.range 8).map f) i = f i := by
  interval_cases i <;> rfl

/-- The level is `NotVisible` exactly when neither tip is inside the rectangle. -/
theorem GetVisibilityLevel_NotVisible_iff (layout : Layout) (rc : PixelRect)
    (poly : List RasterPoint) :
    GetVisibilityLevel layout rc poly = VisibilityLevel.NotVisible ↔
      rc.IsInside (GetPoint poly 7) = false ∧ rc.IsInside (GetPoint poly 2) = false := by
  simp only [GetVisibilityLevel]
  generalize rc.IsInside (GetPoint poly 7) = lt
  generalize rc.IsInside (GetPoint poly 2) = rt
  cases lt <;> cases rt <;> simp <;> split <;> simp

/-- The outcome of `DrawOutline`, by visibility level. -/
theorem DrawOutline_cases (env : Env) (s : SliderShape) (rc : PixelRect) (use_wide_pen : Bool) :
    (GetVisibilityLevel env.layout env.canvas_rect ((List.range 8).map (rawVertex s rc)) =
        VisibilityLevel.NotVisible ∧
      DrawOutline env s rc use_wide_pen = some (false, [])) ∨
    (GetVisibilityLevel env.layout env.canvas_rect ((List.range 8).map (rawVertex s rc)) ≠
        VisibilityLevel.NotVisible ∧
      ∃ ops, DrawOutline env s rc use_wide_pen = some (true, ops) ∧
        ops.all DrawOp.isPlain = true) := by
  simp only [DrawOutline]
  generalize GetVisibilityLevel env.layout env.canvas_rect
    ((List.range 8).map (rawVertex s rc)) = v
  cases v <;> cases hw : env.win32 <;> cases hk : env.kobo <;>
    simp [hk, DrawBackgroundAll, DrawOutlineAll, DrawOp.isPlain, DrawOp.isText, DrawOp.isIcon]

/-- C9: for every canvas rectangle, target rectangle and pen choice, `DrawOutline` returns
(it never reaches the `NotVisible` branch of its switch, where `gcc_unreachable()` stands);
it returns false exactly when the visibility level computed from the unclamped vertices
(each shape point shifted by `rc.left`) is `NotVisible`, which is when neither the
unclamped left tip (point 7) nor the unclamped right tip (point 2) lies inside the canvas
rectangle; in that case it issues no drawing call.  In every other case it returns
true. -/
theorem DrawOutline_not_drawn_iff (env : Env) (s : SliderShape) (rc : PixelRect)
    (use_wide_pen : Bool) :
    DrawOutline env s rc use_wide_pen ≠ none ∧
    ((∃ ops, DrawOutline env s rc use_wide_pen = some (false, ops)) ↔
      GetVisibilityLevel env.layout env.canvas_rect ((List.range 8).map (rawVertex s rc)) =
        VisibilityLevel.NotVisible) ∧
    (GetVisibilityLevel env.layout env.canvas_rect ((List.range 8).map (rawVertex s rc)) =
        VisibilityLevel.NotVisible ↔
      env.canvas_rect.IsInside ⟨(GetPoint s.points 7).x + rc.left, (GetPoint s.points 7).y⟩
          = false ∧
        env.canvas_rect.IsInside ⟨(GetPoint s.points 2).x + rc.left, (GetPoint s.points 2).y⟩
          = false) ∧
    (∀ ops, DrawOutline env s rc use_wide_pen = some (false, ops) → ops = []) ∧
    ((∃ ops, DrawOutline env s rc use_wide_pen = some (true, ops)) ↔
      GetVisibilityLevel env.layout env.canvas_rect ((List.range 8).map (rawVertex s rc)) ≠
        VisibilityLevel.NotVisible) := by
  have hraw : ∀ i, rawVertex s rc i =
      ⟨(GetPoint s.points i).x + rc.left, (GetPoint s.points i).y⟩ := by
    intro i; simp [rawVertex]
  have hiff := GetVisibilityLevel_NotVisible_iff env.layout env.canvas_rect
    ((List.range 8).map (rawVertex s rc))
  rw [GetPoint_map_range _ 7 (by decide), GetPoint_map_range _ 2 (by decide), hraw, hraw] at hiff
  rcases DrawOutline_cases env s rc use_wide_pen with ⟨hv, hd⟩ | ⟨hv, ops, hd, _⟩
  · refine ⟨?_, ?_, hiff, ?_, ?_⟩
    · rw [hd]; simp
    · rw [hd]; simp [hv]
    · intro ops h; rw [hd] at h; simp at h; exact h
    · rw [hd]; simp [hv]
  · refine ⟨?_, ?_, hiff, ?_, ?_⟩
    · rw [hd]; simp
    · rw [hd]; simp [hv]
    · intro ops2 h; rw [hd] at h; simp at h
    · rw [hd]; simp [hv]

/-! ## `Draw`: the invalid entry -/

theorem isPlain_not_icon (ops : List DrawOp) (h : ops.all DrawOp.isPlain = true) :
    ops.all (fun op => !op.isIcon) = true := by
  rw [List.all_eq_true] at h ⊢
  intro op hop
  have := h op hop
  simp only [DrawOp.isPlain, Bool.and_eq_true] at this
  exact this.2

theorem isPlain_not_text (ops : List DrawOp) (h : ops.all DrawOp.isPlain = true) :
    ops.filter DrawOp.isText = [] := by
  rw [List.filter_eq_nil_iff]
  intro op hop
  rw [List.all_eq_true] at h
  have := h op hop
  simp only [DrawOp.isPlain, Bool.and_eq_true, Bool.not_eq_true'] at this
  simp [this.1]

theorem isPlain_not_buffer (b : TextBuffer) (ops : List DrawOp)
    (h : ops.all DrawOp.isPlain = true) : ops.any (DrawOp.drawsBuffer b) = false := by
  rw [List.any_eq_false]
  intro op hop
  rw [List.all_eq_true] at h
  have := h op hop
  cases op <;> simp_all [DrawOp.isPlain, DrawOp.isText, DrawOp.drawsBuffer]

theorem PaintBackground_isPlain (s : SliderShape) (idx list_length : Nat) (rc_outer : PixelRect) :
    (PaintBackground s idx list_length rc_outer).all DrawOp.isPlain = true := by
  simp only [PaintBackground]
  split_ifs <;> simp [DrawOp.isPlain, DrawOp.isText, DrawOp.isIcon]

/-- Where the only text is the placeholder, no text of another buffer is drawn. -/
theorem placeholder_only_buffer (gettext : String → String) (ops : List DrawOp)
    (h3 : ops.all (fun op => !op.isText || op.isPlaceholder gettext) = true)
    (b : TextBuffer) (hb : b ≠ TextBuffer.nav_buffer) :
    ops.any (DrawOp.drawsBuffer b) = false := by
  rw [List.any_eq_false]
  intro op hop
  have := List.all_eq_true.mp h3 op hop
  cases op with
  | TextAutoClipped b2 x y t =>
    cases b2 <;> simp [DrawOp.isText, DrawOp.isPlaceholder] at this
    simp only [DrawOp.drawsBuffer, decide_eq_true_eq]
    exact fun h => hb h.symm
  | DrawClippedText b2 x y w t => simp [DrawOp.isText, DrawOp.isPlaceholder] at this
  | _ => simp [DrawOp.drawsBuffer]

/-- The calls of `DrawInvalid`: plain calls and at most one text, the placeholder. -/
theorem DrawInvalid_ops (env : Env) (s : SliderShape) (rc_outer rc : PixelRect) (idx : Nat)
    (selected use_wide_pen : Bool) :
    ∃ ops, DrawInvalid env s rc_outer rc idx selected use_wide_pen = some ops ∧
      ops.all (fun op => !op.isIcon) = true ∧
      ops.all (fun op => !op.isText || op.isPlaceholder env.gettext) = true ∧
      (ops.filter DrawOp.isText).length ≤ 1 := by
  have hp := PaintBackground_isPlain s idx 1 rc_outer
  have key : ∀ b outline, DrawOutline env s rc_outer use_wide_pen = some (b, outline) →
      outline.all DrawOp.isPlain = true →
      ∃ ops, DrawInvalid env s rc_outer rc idx selected use_wide_pen = some ops ∧
        ops.all (fun op => !op.isIcon) = true ∧
        ops.all (fun op => !op.isText || op.isPlaceholder env.gettext) = true ∧
        (ops.filter DrawOp.isText).length ≤ 1 := by
    intro b outline hd hall
    have h1 := isPlain_not_icon outline hall
    have h2 := isPlain_not_text outline hall
    have h3 := isPlain_not_icon _ hp
    have h4 := isPlain_not_text _ hp
    have h5 : outline.all (fun op => !op.isText || op.isPlaceholder env.gettext) = true := by
      rw [List.all_eq_true] at hall ⊢
      intro op hop
      have := hall op hop
      simp only [DrawOp.isPlain, Bool.and_eq_true] at this
      simp [this.1]
    have h6 : (PaintBackground s idx 1 rc_outer).all
        (fun op => !op.isText || op.isPlaceholder env.gettext) = true := by
      rw [List.all_eq_true] at hp ⊢
      intro op hop
      have := hp op hop
      simp only [DrawOp.isPlain, Bool.and_eq_true] at this
      simp [this.1]
    simp only [DrawInvalid, hd]
    refine ⟨_, rfl, ?_, ?_, ?_⟩
    · simp only [List.all_append, Bool.and_eq_true]
      refine ⟨⟨⟨⟨rfl, h1⟩, rfl⟩, ?_⟩, ?_⟩
      · split_ifs <;> rfl
      · split_ifs
        · exact h3
        · rfl
    · simp only [List.all_append, Bool.and_eq_true]
      refine ⟨⟨⟨⟨rfl, h5⟩, rfl⟩, ?_⟩, ?_⟩
      · split_ifs
        · simp [DrawOp.isText, DrawOp.isPlaceholder]
        · rfl
      · split_ifs
        · exact h6
        · rfl
    · simp only [List.filter_append, List.length_append, h2]
      have e1 : List.filter DrawOp.isText
          [DrawOp.SetTextColor selected, DrawOp.SelectBackgroundBrush selected] = [] := rfl
      have e2 : List.filter DrawOp.isText [DrawOp.SelectFont FontId.medium_font] = [] := rfl
      rw [e1, e2]
      split_ifs <;> simp [DrawOp.isText, h4]
  rcases DrawOutline_cases env s rc_outer use_wide_pen with ⟨_, hd⟩ | ⟨_, ops, hd, hall⟩
  · exact key false [] hd (by simp)
  · exact key true ops hd hall

/-- C7: for every call of `Draw` with `tp_valid = false`, at any index and for any values of
the other parameters, `Draw` does what `DrawInvalid` does and nothing more; the only text
drawn is the "Click to navigate" placeholder, at most once: no type label, altitude,
distance or name text is drawn, and no bearing, checkmark, target, teammate or waypoint icon
is drawn. -/
theorem Draw_invalid (env : Env) (s : SliderShape) (a : DrawArgs) (h : a.tp_valid = false) :
    Draw env s a =
      DrawInvalid env s a.rc_outer (Draw_rc s a.rc_outer) a.idx a.selected a.use_wide_pen ∧
    ∃ ops, Draw env s a = some ops ∧
      ops.all (fun op => !op.isIcon) = true ∧
      ops.all (fun op => !op.isText || op.isPlaceholder env.gettext) = true ∧
      (ops.filter DrawOp.isText).length ≤ 1 ∧
      ops.any (DrawOp.drawsBuffer TextBuffer.type_buffer) = false ∧
      ops.any (DrawOp.drawsBuffer TextBuffer.height_buffer) = false ∧
      ops.any (DrawOp.drawsBuffer TextBuffer.distance_buffer) = false ∧
      ops.any (DrawOp.drawsBuffer TextBuffer.tp_name) = false := by
  have he : Draw env s a =
      DrawInvalid env s a.rc_outer (Draw_rc s a.rc_outer) a.idx a.selected a.use_wide_pen := by
    simp [Draw, h]
  obtain ⟨ops, h1, h2, h3, h4⟩ :=
    DrawInvalid_ops env s a.rc_outer (Draw_rc s a.rc_outer) a.idx a.selected a.use_wide_pen
  have hb : ∀ b, b ≠ TextBuffer.nav_buffer → ops.any (DrawOp.drawsBuffer b) = false :=
    placeholder_only_buffer env.gettext ops h3
  exact ⟨he, ops, he ▸ h1, h2, h3, h4, hb _ (by decide), hb _ (by decide), hb _ (by decide),
    hb _ (by decide)⟩

/-- C7, witness: an invalid entry in the example environment. -/
theorem Draw_invalid_witness :
    Draw exampleEnv exampleResized exampleArgsInvalid =
      DrawInvalid exampleEnv exampleResized exampleArgsInvalid.rc_outer
        (Draw_rc exampleResized exampleArgsInvalid.rc_outer) exampleArgsInvalid.idx
        exampleArgsInvalid.selected exampleArgsInvalid.use_wide_pen :=
  (Draw_invalid exampleEnv exampleResized exampleArgsInvalid rfl).1

/-! ## `Draw`: which part draws which text -/

theorem Draw_visible_eq (env : Env) (s : SliderShape) (a : DrawArgs) (outline : List DrawOp)
    (hv : a.tp_valid = true)
    (hd : DrawOutline env s a.rc_outer a.use_wide_pen = some (true, outline)) :
    Draw env s a =
      some ([DrawOp.SetTextColor a.selected, DrawOp.SelectBackgroundBrush a.selected] ++ outline ++
        (if env.win32 && env.HasDraggableScreen then
          PaintBackground s a.idx (if a.task_mode = TaskType.GOTO then 1 else a.task_size)
            a.rc_outer
        else []) ++ [DrawOp.SelectFont FontId.small_font] ++ Draw_altitude env s a ++
        (Draw_distance env s a).2 ++ Draw_name env s a (Draw_distance env s a).1) := by
  simp [Draw, hv, hd]

theorem Draw_not_visible_eq (env : Env) (s : SliderShape) (a : DrawArgs)
    (hv : a.tp_valid = true)
    (hd : DrawOutline env s a.rc_outer a.use_wide_pen = some (false, [])) :
    Draw env s a =
      some [DrawOp.SetTextColor a.selected, DrawOp.SelectBackgroundBrush a.selected] := by
  simp [Draw, hv, hd]

theorem Draw_altitude_any (env : Env) (s : SliderShape) (a : DrawArgs) (b : TextBuffer)
    (hb : b ≠ TextBuffer.height_buffer) :
    (Draw_altitude env s a).any (DrawOp.drawsBuffer b) = false := by
  simp only [Draw_altitude]
  split_ifs <;> simp [DrawOp.drawsBuffer, hb.symm]

theorem Draw_name_icon_any (env : Env) (s : SliderShape) (a : DrawArgs) (left_icon : Int)
    (icon : Icon) (icon_size : PixelSize) (b : TextBuffer) :
    (Draw_name_icon env s a left_icon icon icon_size).any (DrawOp.drawsBuffer b) = false := by
  simp only [Draw_name_icon]
  split_ifs <;> first | rfl | (split <;> rfl)

theorem Draw_name_any (env : Env) (s : SliderShape) (a : DrawArgs) (dir : BearingDirection)
    (b : TextBuffer) (hb : b ≠ TextBuffer.tp_name) :
    (Draw_name env s a dir).any (DrawOp.drawsBuffer b) = false := by
  simp only [Draw_name, List.any_append]
  rw [Bool.or_eq_false_iff]
  constructor
  · simp [DrawOp.drawsBuffer, hb.symm]
  · split
    · exact Draw_name_icon_any _ _ _ _ _ _ _
    · rfl

theorem DrawBearing_any (env : Env) (s : SliderShape) (rc_outer : PixelRect) (d : ℚ)
    (b : TextBuffer) : (DrawBearing env s rc_outer d).2.any (DrawOp.drawsBuffer b) = false := by
  rcases DrawBearing_ops env s rc_outer d with h | ⟨icon, pt, _, h⟩ <;> rw [h] <;>
    simp [DrawOp.drawsBuffer]

theorem Draw_bearing_any (env : Env) (s : SliderShape) (a : DrawArgs) (b : TextBuffer) :
    (Draw_bearing env s a).2.any (DrawOp.drawsBuffer b) = false := by
  simp only [Draw_bearing]
  split
  · exact DrawBearing_any _ _ _ _ _
  · rfl

/-- Whether the distance part of `Draw` draws the type label. -/
theorem Draw_distance_any_type (env : Env) (s : SliderShape) (a : DrawArgs) :
    (Draw_distance env s a).2.any (DrawOp.drawsBuffer TextBuffer.type_buffer) =
      if a.distance_valid || (a.gr_valid && env.navbar_enable_gr) then
        Draw_label_fits env s a && (decide ((Draw_rc s a.rc_outer).left > 0) &&
          env.navbar_enable_tp_index)
      else env.navbar_enable_tp_index := by
  simp only [Draw_distance]
  split
  · simp only [List.any_append, Draw_bearing_any, Bool.or_false]
    have e1 : (Draw_distance_string env s a).any (DrawOp.drawsBuffer TextBuffer.type_buffer)
        = false := by
      simp only [Draw_distance_string]; split <;> rfl
    have e2 : (Draw_label env s a).any (DrawOp.drawsBuffer TextBuffer.type_buffer) =
        (Draw_label_fits env s a && (decide ((Draw_rc s a.rc_outer).left > 0) &&
          env.navbar_enable_tp_index)) := by
      simp only [Draw_label]
      split
      · next hf =>
        rw [hf, Bool.true_and]
        split
        · next hc => rw [hc]; rfl
        · next hc => rw [Bool.not_eq_true] at hc; rw [hc]; rfl
      · next hf => rw [Bool.not_eq_true] at hf; rw [hf]; rfl
    rw [e1, e2]; simp [DrawOp.drawsBuffer]
  · split
    · next hc => rw [hc]; rfl
    · next hc => rw [Bool.not_eq_true] at hc; rw [hc]; rfl

/-- Whether the distance part of `Draw` draws the distance string. -/
theorem Draw_distance_any_distance (env : Env) (s : SliderShape) (a : DrawArgs) :
    (Draw_distance env s a).2.any (DrawOp.drawsBuffer TextBuffer.distance_buffer) =
      if a.distance_valid || (a.gr_valid && env.navbar_enable_gr) then
        decide (Draw_distance_left env s a > 0)
      else false := by
  simp only [Draw_distance]
  split
  · simp only [List.any_append, Draw_bearing_any, Bool.or_false]
    have e1 : (Draw_distance_string env s a).any (DrawOp.drawsBuffer TextBuffer.distance_buffer)
        = decide (Draw_distance_left env s a > 0) := by
      simp only [Draw_distance_string]
      split
      · next hc => rw [decide_eq_true hc]; rfl
      · next hc => rw [decide_eq_false hc]; rfl
    have e2 : (Draw_label env s a).any (DrawOp.drawsBuffer TextBuffer.distance_buffer) =
        false := by
      simp only [Draw_label]
      split
      · split <;> rfl
      · rfl
    rw [e1, e2]; simp [DrawOp.drawsBuffer]
  · split <;> rfl

/-- Every distance string the distance part of `Draw` draws is `distance_buffer`. -/
theorem Draw_distance_text_ops (env : Env) (s : SliderShape) (a : DrawArgs) (op : DrawOp)
    (hop : op ∈ (Draw_distance env s a).2)
    (hb : op.drawsBuffer TextBuffer.distance_buffer = true) :
    ∃ x y, op = DrawOp.TextAutoClipped TextBuffer.distance_buffer x y
      (Draw_distance_buffer env a) := by
  have hno : ∀ (l : List DrawOp), l.any (DrawOp.drawsBuffer TextBuffer.distance_buffer) = false →
      op ∈ l → False := by
    intro l hl hm
    rw [List.any_eq_false] at hl
    exact hl op hm hb
  have e2 : (Draw_label env s a).any (DrawOp.drawsBuffer TextBuffer.distance_buffer) =
      false := by
    simp only [Draw_label]
    split
    · split <;> rfl
    · rfl
  simp only [Draw_distance] at hop
  split at hop
  · simp only [List.mem_append] at hop
    rcases hop with ((h | h) | h) | h
    · exact (hno _ (by rfl) h).elim
    · exact (hno _ e2 h).elim
    · simp only [Draw_distance_string] at h
      split at h
      · simp only [List.mem_append, List.mem_singleton] at h
        rcases h with rfl | rfl
        · cases hb
        · exact ⟨_, _, rfl⟩
      · exact (hno _ (by rfl) h).elim
    · exact (hno _ (Draw_bearing_any _ _ _ _) h).elim
  · split at hop
    · exact (hno _ (by rfl) hop).elim
    · exact (hno _ (by rfl) hop).elim

/-- For a valid and visible entry, a text other than the altitude and the name is drawn by
`Draw` exactly when the distance part draws it. -/
theorem Draw_visible_any (env : Env) (s : SliderShape) (a : DrawArgs) (b : TextBuffer)
    (hv : a.tp_valid = true)
    (hvis : outlineVisibility env s a.rc_outer ≠ VisibilityLevel.NotVisible)
    (hb1 : b ≠ TextBuffer.height_buffer) (hb2 : b ≠ TextBuffer.tp_name) :
    ∃ ops, Draw env s a = some ops ∧
      ops.any (DrawOp.drawsBuffer b) = (Draw_distance env s a).2.any (DrawOp.drawsBuffer b) ∧
      ∀ op ∈ ops, op.drawsBuffer b = true → op ∈ (Draw_distance env s a).2 := by
  rcases DrawOutline_cases env s a.rc_outer a.use_wide_pen with ⟨h, _⟩ | ⟨_, outline, hd, hall⟩
  · exact absurd h hvis
  · have h1 := isPlain_not_buffer b outline hall
    have h2 : (if env.win32 && env.HasDraggableScreen then
        PaintBackground s a.idx (if a.task_mode = TaskType.GOTO then 1 else a.task_size)
          a.rc_outer
        else []).any (DrawOp.drawsBuffer b) = false := by
      split
      · exact isPlain_not_buffer b _ (PaintBackground_isPlain _ _ _ _)
      · rfl
    have h3 := Draw_altitude_any env s a b hb1
    have h4 := Draw_name_any env s a (Draw_distance env s a).1 b hb2
    have e0 : [DrawOp.SetTextColor a.selected, DrawOp.SelectBackgroundBrush a.selected].any
        (DrawOp.drawsBuffer b) = false := rfl
    have e1 : [DrawOp.SelectFont FontId.small_font].any (DrawOp.drawsBuffer b) = false := rfl
    refine ⟨_, Draw_visible_eq env s a outline hv hd, ?_, ?_⟩
    · simp only [List.any_append, e0, h1, h2, h3, h4, e1, Bool.or_false, Bool.false_or]
    · intro op hop hb
      have hno : ∀ (l : List DrawOp), l.any (DrawOp.drawsBuffer b) = false → op ∈ l → False := by
        intro l hl hm
        rw [List.any_eq_false] at hl
        exact hl op hm hb
      simp only [List.mem_append] at hop
      rcases hop with (((((h | h) | h) | h) | h) | h) | h
      · exact (hno _ e0 h).elim
      · exact (hno _ h1 h).elim
      · exact (hno _ h2 h).elim
      · exact (hno _ e1 h).elim
      · exact (hno _ h3 h).elim
      · exact h
      · exact (hno _ h4 h).elim

/-- Every distance string `Draw` draws is `distance_buffer`. -/
theorem Draw_distance_buffer_ops (env : Env) (s : SliderShape) (a : DrawArgs)
    (ops : List DrawOp) (op : DrawOp) (h : Draw env s a = some ops) (hop : op ∈ ops)
    (hb : op.drawsBuffer TextBuffer.distance_buffer = true) :
    ∃ x y, op = DrawOp.TextAutoClipped TextBuffer.distance_buffer x y
      (Draw_distance_buffer env a) := by
  cases hv : a.tp_valid
  · obtain ⟨ops2, h2, _, h3, _⟩ :=
      DrawInvalid_ops env s a.rc_outer (Draw_rc s a.rc_outer) a.idx a.selected a.use_wide_pen
    have he : Draw env s a =
        DrawInvalid env s a.rc_outer (Draw_rc s a.rc_outer) a.idx a.selected a.use_wide_pen := by
      simp [Draw, hv]
    rw [he, h2] at h
    cases h
    have h4 := placeholder_only_buffer env.gettext ops h3 TextBuffer.distance_buffer (by decide)
    rw [List.any_eq_false] at h4
    exact absurd hb (h4 op hop)
  · rcases DrawOutline_cases env s a.rc_outer a.use_wide_pen with ⟨_, hd⟩ | ⟨hvis, _⟩
    · rw [Draw_not_visible_eq env s a hv hd] at h
      cases h
      simp only [List.mem_cons, List.mem_singleton, List.not_mem_nil, or_false] at hop
      rcases hop with rfl | rfl <;> cases hb
    · obtain ⟨ops2, h2, _, h3⟩ := Draw_visible_any env s a TextBuffer.distance_buffer hv hvis
        (by decide) (by decide)
      rw [h] at h2
      cases h2
      exact Draw_distance_text_ops env s a op (h3 op hop hb) hb

/-! ## `Draw`: the glide ratio -/

theorem StaticString_set_length (capacity : Nat) (text : String) :
    (StaticString_set capacity text).length ≤ capacity - 1 := by
  simp only [StaticString_set, String.length, List.length_take]
  omega

theorem StaticString_append_length (capacity : Nat) (buffer text : String)
    (h : buffer.length ≤ capacity - 1) :
    (StaticString_append capacity buffer text).length ≤ capacity - 1 := by
  simp only [StaticString_append, StaticString_appended, String.length_append]
  simp only [String.length, List.length_take] at h ⊢
  omega

/-- A text that fits into the room left is appended in full. -/
theorem StaticString_appended_of_room (capacity : Nat) (buffer text : String)
    (h : buffer.length + text.length ≤ capacity - 1) :
    StaticString_appended capacity buffer text = text := by
  simp only [String.length] at h
  simp only [StaticString_appended, String.length]
  rw [List.take_of_length_le (by omega)]

/-- The distance text of `Draw` has at most 29 characters. -/
theorem Draw_distance_text_length (env : Env) (a : DrawArgs) :
    (Draw_distance_text env a).length ≤ 29 := by
  simp only [Draw_distance_text]
  apply StaticString_append_length 30
  split
  · exact StaticString_set_length 30 _
  · decide

/-- The text handed to the distance buffer for the glide ratio, by the range of the
ratio. -/
theorem Draw_gr_text_eq (env : Env) (a : DrawArgs) :
    (a.gr_valid = true → env.navbar_enable_gr = true → a.gradient ≤ 0 →
      Draw_gr_text env a = " [##]") ∧
    (a.gr_valid = true → env.navbar_enable_gr = true → 99.5 ≤ a.gradient →
      Draw_gr_text env a = " [99+]") ∧
    (a.gr_valid = true → env.navbar_enable_gr = true → 0 < a.gradient → a.gradient < 99.5 →
      Draw_gr_text env a = " [" ++ StaticString_set 10 (env.FormatGR a.gradient) ++ "]") ∧
    (a.gr_valid = false ∨ env.navbar_enable_gr = false → Draw_gr_text env a = "") := by
  refine ⟨?_, ?_, ?_, ?_⟩
  · intro h1 h2 h3
    simp [Draw_gr_text, h1, h2, h3]
  · intro h1 h2 h3
    have h4 : ¬ a.gradient ≤ 0 := by
      intro h; have : (99.5 : ℚ) ≤ 0 := le_trans h3 h
      norm_num at this
    simp [Draw_gr_text, h1, h2, h3, h4]
  · intro h1 h2 h3 h4
    simp [Draw_gr_text, Draw_glide_ratio_buffer, h1, h2, not_le.mpr h3, not_le.mpr h4]
  · intro h
    rcases h with h | h <;> simp [Draw_gr_text, h]

/-- C5 (as amended): in `Draw`, whenever the glide ratio is valid and the glide-ratio setting
is enabled, the text handed to the distance buffer is " [##]" for every ratio `≤ 0` (the
ratio 0 included), " [99+]" for every ratio `≥ 99.5` (the ratio 99.5 included), and
" [<s>]" for every ratio strictly between 0 and 99.5 (for example 50.2), with `s` the output
of the numeric glide-ratio formatter as its buffer of capacity 10 holds it; when the glide
ratio is not valid or the setting is disabled, nothing is appended.  The suffix appended
is that text cut to the room left in the distance buffer, which holds 29 characters: it is
the whole text whenever distance text and suffix have at most 29 characters together.  The
distance string `Draw` draws is the distance text followed by the suffix appended, and has
at most 29 characters. -/
theorem Draw_gr_suffix_cases (env : Env) (s : SliderShape) (a : DrawArgs) :
    (a.gr_valid = true → env.navbar_enable_gr = true → a.gradient ≤ 0 →
      Draw_gr_text env a = " [##]") ∧
    (a.gr_valid = true → env.navbar_enable_gr = true → 99.5 ≤ a.gradient →
      Draw_gr_text env a = " [99+]") ∧
    (a.gr_valid = true → env.navbar_enable_gr = true → 0 < a.gradient → a.gradient < 99.5 →
      Draw_gr_text env a = " [" ++ StaticString_set 10 (env.FormatGR a.gradient) ++ "]") ∧
    (a.gr_valid = true → env.navbar_enable_gr = true → a.gradient = 0 →
      Draw_gr_text env a = " [##]") ∧
    (a.gr_valid = true → env.navbar_enable_gr = true → a.gradient = 99.5 →
      Draw_gr_text env a = " [99+]") ∧
    (a.gr_valid = true → env.navbar_enable_gr = true → a.gradient = 50.2 →
      Draw_gr_text env a = " [" ++ StaticString_set 10 (env.FormatGR 50.2) ++ "]") ∧
    (a.gr_valid = false ∨ env.navbar_enable_gr = false →
      Draw_gr_text env a = "" ∧ Draw_gr_suffix env a = "" ∧
      Draw_distance_buffer env a = Draw_distance_text env a) ∧
    Draw_gr_suffix env a =
      ⟨(Draw_gr_text env a).data.take (29 - (Draw_distance_text env a).length)⟩ ∧
    ((Draw_distance_text env a).length + (Draw_gr_text env a).length ≤ 29 →
      Draw_gr_suffix env a = Draw_gr_text env a ∧
      Draw_distance_buffer env a = Draw_distance_text env a ++ Draw_gr_text env a) ∧
    Draw_distance_buffer env a = Draw_distance_text env a ++ Draw_gr_suffix env a ∧
    (Draw_distance_buffer env a).length ≤ 29 ∧
    (∀ ops op, Draw env s a = some ops → op ∈ ops →
      op.drawsBuffer TextBuffer.distance_buffer = true →
      ∃ x y, op = DrawOp.TextAutoClipped TextBuffer.distance_buffer x y
        (Draw_distance_text env a ++ Draw_gr_suffix env a)) := by
  obtain ⟨low, high, mid, off⟩ := Draw_gr_text_eq env a
  have hroom : (Draw_distance_text env a).length + (Draw_gr_text env a).length ≤ 29 →
      Draw_gr_suffix env a = Draw_gr_text env a := by
    intro h
    exact StaticString_appended_of_room 30 _ _ h
  refine ⟨low, high, mid, ?_, ?_, ?_, ?_, rfl, ?_, rfl, ?_, ?_⟩
  · intro h1 h2 h3; exact low h1 h2 (le_of_eq h3)
  · intro h1 h2 h3; exact high h1 h2 (le_of_eq h3.symm)
  · intro h1 h2 h3
    have := mid h1 h2 (by rw [h3]; norm_num) (by rw [h3]; norm_num)
    rw [h3] at this; exact this
  · intro h
    have e := off h
    have e2 : Draw_gr_suffix env a = "" := by
      simp only [Draw_gr_suffix, StaticString_appended, e]
      rw [List.take_nil]
    refine ⟨e, e2, ?_⟩
    have e3 : Draw_distance_buffer env a = Draw_distance_text env a ++ Draw_gr_suffix env a :=
      rfl
    rw [e3, e2]
    simp
  · intro h
    have e3 : Draw_distance_buffer env a = Draw_distance_text env a ++ Draw_gr_suffix env a :=
      rfl
    exact ⟨hroom h, by rw [e3, hroom h]⟩
  · exact StaticString_append_length 30 _ _ (Draw_distance_text_length env a)
  · intro ops op h hop hb
    exact Draw_distance_buffer_ops env s a ops op h hop hb

/-- C5, witness: a valid glide ratio of 0 in the example environment; the distance text
"12.5 km" leaves room for the whole suffix. -/
theorem Draw_gr_suffix_cases_witness :
    Draw_gr_text exampleEnv exampleArgsGR = " [##]" ∧
    Draw_distance_buffer exampleEnv exampleArgsGR =
      Draw_distance_text exampleEnv exampleArgsGR ++ Draw_gr_text exampleEnv exampleArgsGR :=
  have h := Draw_gr_suffix_cases exampleEnv exampleResized exampleArgsGR
  have e : Draw_gr_text exampleEnv exampleArgsGR = " [##]" := h.1 rfl rfl (le_refl _)
  ⟨e, (h.2.2.2.2.2.2.2.2.1 (by rw [e]; decide)).2⟩

/-- C5, counterexample: with a distance text of 24 characters and a valid glide ratio of
100, the setting enabled, `Draw` hands " [99+]" to the distance buffer, which has room for
five more characters only: the suffix appended is " [99+", without the closing bracket,
and every distance string `Draw` draws for the entry is the text with that cut suffix. -/
theorem Draw_gr_suffix_cases_counterexample :
    exampleArgsGRHigh.gr_valid = true ∧ exampleEnvLong.navbar_enable_gr = true ∧
    (99.5 : ℚ) ≤ exampleArgsGRHigh.gradient ∧
    Draw_distance_text exampleEnvLong exampleArgsGRHigh = "1234567890123456789.5 km" ∧
    Draw_gr_suffix exampleEnvLong exampleArgsGRHigh = " [99+" ∧
    Draw_gr_suffix exampleEnvLong exampleArgsGRHigh ≠ " [99+]" ∧
    Draw_distance_buffer exampleEnvLong exampleArgsGRHigh = "1234567890123456789.5 km [99+" ∧
    (∀ ops op, Draw exampleEnvLong exampleResized exampleArgsGRHigh = some ops → op ∈ ops →
      op.drawsBuffer TextBuffer.distance_buffer = true →
      ∃ x y, op = DrawOp.TextAutoClipped TextBuffer.distance_buffer x y
        "1234567890123456789.5 km [99+") := by
  have e : Draw_gr_text exampleEnvLong exampleArgsGRHigh = " [99+]" :=
    (Draw_gr_text_eq exampleEnvLong exampleArgsGRHigh).2.1 rfl rfl
      (by norm_num [exampleArgsGRHigh])
  have e1 : Draw_distance_text exampleEnvLong exampleArgsGRHigh = "1234567890123456789.5 km" := by
    decide
  have e2 : Draw_gr_suffix exampleEnvLong exampleArgsGRHigh = " [99+" := by
    simp only [Draw_gr_suffix, e, e1]
    decide
  have e3 : Draw_distance_buffer exampleEnvLong exampleArgsGRHigh =
      Draw_distance_text exampleEnvLong exampleArgsGRHigh ++
        Draw_gr_suffix exampleEnvLong exampleArgsGRHigh := rfl
  have e4 : Draw_distance_buffer exampleEnvLong exampleArgsGRHigh =
      "1234567890123456789.5 km [99+" := by
    rw [e3, e1, e2]; decide
  refine ⟨rfl, rfl, by norm_num [exampleArgsGRHigh], e1, e2, ?_, e4, ?_⟩
  · rw [e2]; decide
  · intro ops op h hop hb
    have := Draw_distance_buffer_ops exampleEnvLong exampleResized exampleArgsGRHigh ops op h
      hop hb
    rw [e4] at this
    exact this

/-! ## `Draw`: type label and distance -/

theorem Draw_height_width_nonneg (env : Env) (a : DrawArgs) : 0 ≤ Draw_height_width env a := by
  unfold Draw_height_width; split <;> omega

/-- Where nothing wraps, the test for room for the label compares the three widths with the
width of `rc` less the margin. -/
theorem Draw_label_fits_iff (env : Env) (s : SliderShape) (a : DrawArgs)
    (hr : DrawInRange env s a) :
    Draw_label_fits env s a = true ↔
      Draw_label_width env a + Draw_distance_width env a + Draw_height_width env a <
        (Draw_rc s a.rc_outer).right - (Draw_rc s a.rc_outer).left - env.layout.FastScale 15 := by
  obtain ⟨h1, h2, h3, h4, h5, h6, h7, h8, h9⟩ := hr
  have hh := Draw_height_width_nonneg env a
  have hl : 0 ≤ Draw_label_width env a := by unfold Draw_label_width; omega
  have hd : 0 ≤ Draw_distance_width env a := by unfold Draw_distance_width; omega
  simp only [Draw_label_fits, decide_eq_true_eq]
  generalize Draw_label_width env a = lw at *
  generalize Draw_distance_width env a = dw at *
  generalize Draw_height_width env a = hw at *
  generalize (Draw_rc s a.rc_outer).left = l at *
  generalize (Draw_rc s a.rc_outer).right = r at *
  unfold toPixelScalar toUPixelScalar
  omega

/-- Where nothing wraps, the x coordinate of the distance string. -/
theorem Draw_distance_left_eq (env : Env) (s : SliderShape) (a : DrawArgs)
    (hr : DrawInRange env s a) :
    Draw_distance_left env s a =
      if Draw_label_fits env s a then
        (Draw_rc s a.rc_outer).left +
          ((Draw_rc s a.rc_outer).right - (Draw_rc s a.rc_outer).left
            - Draw_distance_width env a) / 2
      else (Draw_rc s a.rc_outer).left := by
  have hf := Draw_label_fits_iff env s a hr
  obtain ⟨h1, h2, h3, h4, h5, h6, h7, h8, h9⟩ := hr
  have hh := Draw_height_width_nonneg env a
  have hl : 0 ≤ Draw_label_width env a := by unfold Draw_label_width; omega
  have hd : 0 ≤ Draw_distance_width env a := by unfold Draw_distance_width; omega
  simp only [Draw_distance_left]
  generalize Draw_label_width env a = lw at *
  generalize Draw_distance_width env a = dw at *
  generalize Draw_height_width env a = hw at *
  generalize (Draw_rc s a.rc_outer).left = l at *
  generalize (Draw_rc s a.rc_outer).right = r at *
  split
  · next hfit =>
    have := hf.mp hfit
    unfold toPixelScalar toUPixelScalar
    omega
  · unfold toPixelScalar toUPixelScalar
    omega

/-- C6 (as amended): in `Draw` for a valid, visible entry with fixed font metrics and nothing
wrapping.  Where the distance or the glide ratio is shown: whenever the type-label width
plus the distance-string width plus the altitude-string width is below
`rc.right - rc.left - FastScale(15)`, the type label is drawn exactly when `rc.left > 0` and
the setting `navbar_enable_tp_index` is enabled, and the distance string is drawn, centred
in `rc`, exactly when its x coordinate `rc.left + (rc.right - rc.left - distance_width) / 2`
is positive; whenever the sum is not below that bound, the type label is not drawn, and
the distance string is drawn, at `rc.left`, exactly when `rc.left > 0`.  Where neither the
distance nor the glide ratio is shown, no distance string is drawn and the type label is
drawn exactly when the setting is enabled. -/
theorem Draw_label_and_distance (env : Env) (s : SliderShape) (a : DrawArgs)
    (hv : a.tp_valid = true)
    (hvis : outlineVisibility env s a.rc_outer ≠ VisibilityLevel.NotVisible)
    (hr : DrawInRange env s a) :
    ∃ ops, Draw env s a = some ops ∧
      ((a.distance_valid = true ∨ (a.gr_valid = true ∧ env.navbar_enable_gr = true)) →
        (Draw_label_width env a + Draw_distance_width env a + Draw_height_width env a <
            (Draw_rc s a.rc_outer).right - (Draw_rc s a.rc_outer).left
              - env.layout.FastScale 15 →
          (ops.any (DrawOp.drawsBuffer TextBuffer.type_buffer) = true ↔
            (0 < (Draw_rc s a.rc_outer).left ∧ env.navbar_enable_tp_index = true)) ∧
          (ops.any (DrawOp.drawsBuffer TextBuffer.distance_buffer) = true ↔
            0 < (Draw_rc s a.rc_outer).left +
              ((Draw_rc s a.rc_outer).right - (Draw_rc s a.rc_outer).left
                - Draw_distance_width env a) / 2)) ∧
        ((Draw_rc s a.rc_outer).right - (Draw_rc s a.rc_outer).left
              - env.layout.FastScale 15 ≤
            Draw_label_width env a + Draw_distance_width env a + Draw_height_width env a →
          ops.any (DrawOp.drawsBuffer TextBuffer.type_buffer) = false ∧
          (ops.any (DrawOp.drawsBuffer TextBuffer.distance_buffer) = true ↔
            0 < (Draw_rc s a.rc_outer).left))) ∧
      (¬ (a.distance_valid = true ∨ (a.gr_valid = true ∧ env.navbar_enable_gr = true)) →
        ops.any (DrawOp.drawsBuffer TextBuffer.type_buffer) = env.navbar_enable_tp_index ∧
        ops.any (DrawOp.drawsBuffer TextBuffer.distance_buffer) = false) := by
  obtain ⟨ops, hops, ht, _⟩ := Draw_visible_any env s a TextBuffer.type_buffer hv hvis
    (by decide) (by decide)
  obtain ⟨ops2, hops2, hdist, _⟩ := Draw_visible_any env s a TextBuffer.distance_buffer hv hvis
    (by decide) (by decide)
  rw [hops] at hops2
  cases hops2
  have hf := Draw_label_fits_iff env s a hr
  have hleft := Draw_distance_left_eq env s a hr
  refine ⟨ops, hops, ?_, ?_⟩
  · intro hc
    have hc2 : (a.distance_valid || (a.gr_valid && env.navbar_enable_gr)) = true := by
      rcases hc with h | ⟨h1, h2⟩ <;> simp [*]
    rw [ht, hdist, Draw_distance_any_type, Draw_distance_any_distance, if_pos hc2, if_pos hc2,
      hleft]
    constructor
    · intro hlt
      have hfit := hf.mpr hlt
      rw [hfit, if_pos rfl]
      simp
    · intro hge
      have hfit : Draw_label_fits env s a = false := by
        rw [← Bool.not_eq_true, hf]; omega
      rw [hfit]
      simp
  · intro hc
    have hc2 : ¬ (a.distance_valid || (a.gr_valid && env.navbar_enable_gr)) = true := by
      intro h
      apply hc
      simp only [Bool.or_eq_true, Bool.and_eq_true] at h
      exact h
    rw [ht, hdist, Draw_distance_any_type, Draw_distance_any_distance, if_neg hc2, if_neg hc2]
    exact ⟨rfl, rfl⟩

/-- C6, witness: the example entry in the example environment is valid, visible and in
range, and `Draw` returns its calls. -/
theorem Draw_label_and_distance_witness :
    exampleArgs.tp_valid = true ∧
    outlineVisibility exampleEnv exampleResized exampleArgs.rc_outer ≠
      VisibilityLevel.NotVisible ∧
    DrawInRange exampleEnv exampleResized exampleArgs ∧
    ∃ ops, Draw exampleEnv exampleResized exampleArgs = some ops :=
  ⟨rfl, by decide, by decide,
    (Draw_label_and_distance exampleEnv exampleResized exampleArgs rfl (by decide)
      (by decide)).imp (fun _ h => h.1)⟩

/-- C6, counterexample: two valid, visible entries.  In the first the widths of label (40),
distance (56) and altitude (0) sum to 96, below `rc.right - rc.left - FastScale(15)` = 285,
and the type label is not drawn, the setting `navbar_enable_tp_index` being disabled.  In
the second, whose left tip is off the canvas (`rc.left = -10`), the sum 96 exceeds the
bound 45, and the distance string is not drawn (nor is the label). -/
theorem Draw_label_and_distance_counterexample :
    (exampleArgs.tp_valid = true ∧
      outlineVisibility exampleEnvNoIndex exampleResized exampleArgs.rc_outer =
        VisibilityLevel.Full ∧
      Draw_label_width exampleEnvNoIndex exampleArgs +
          Draw_distance_width exampleEnvNoIndex exampleArgs +
          Draw_height_width exampleEnvNoIndex exampleArgs = 96 ∧
      (Draw_rc exampleResized exampleArgs.rc_outer).right -
          (Draw_rc exampleResized exampleArgs.rc_outer).left -
          exampleEnvNoIndex.layout.FastScale 15 = 285 ∧
      (Draw exampleEnvNoIndex exampleResized exampleArgs).map
          (fun ops => ops.any (DrawOp.drawsBuffer TextBuffer.type_buffer)) = some false ∧
      (Draw exampleEnvNoIndex exampleResized exampleArgs).map
          (fun ops => ops.any (DrawOp.drawsBuffer TextBuffer.distance_buffer)) = some true) ∧
    (exampleArgsLeft.tp_valid = true ∧
      outlineVisibility exampleEnv exampleResized exampleArgsLeft.rc_outer =
        VisibilityLevel.RightTipAndBody ∧
      Draw_label_width exampleEnv exampleArgsLeft +
          Draw_distance_width exampleEnv exampleArgsLeft +
          Draw_height_width exampleEnv exampleArgsLeft = 96 ∧
      (Draw_rc exampleResized exampleArgsLeft.rc_outer).right -
          (Draw_rc exampleResized exampleArgsLeft.rc_outer).left -
          exampleEnv.layout.FastScale 15 = 45 ∧
      (Draw_rc exampleResized exampleArgsLeft.rc_outer).left = -10 ∧
      (Draw exampleEnv exampleResized exampleArgsLeft).map
          (fun ops => ops.any (DrawOp.drawsBuffer TextBuffer.distance_buffer)) = some false ∧
      (Draw exampleEnv exampleResized exampleArgsLeft).map
          (fun ops => ops.any (DrawOp.drawsBuffer TextBuffer.type_buffer)) = some false) := by
  decide

/-! ## `WndButton` -/

/-- C8: for every accept-key (`VK_RETURN`) event, `on_key_down` returns the result of
`on_clicked`: when a click callback is registered it calls that callback exactly once, with
the button, and returns true; when no callback is registered it calls nothing and returns
false.  `on_key_check` returns true exactly for `VK_RETURN`. -/
theorem WndButton_on_key_down_return (keys : KeyCodes) (gnav : Bool)
    (base_on_key_down : Nat → Bool) (b : WndButton) :
    b.on_key_down keys gnav base_on_key_down keys.VK_RETURN = b.on_clicked ∧
    (∀ f, b.mOnClickNotify = some f →
      b.on_key_down keys gnav base_on_key_down keys.VK_RETURN = (true, [⟨f, b⟩])) ∧
    (b.mOnClickNotify = none →
      b.on_key_down keys gnav base_on_key_down keys.VK_RETURN = (false, [])) ∧
    (∀ key_code, b.on_key_check keys key_code = true ↔ key_code = keys.VK_RETURN) := by
  have h : b.on_key_down keys gnav base_on_key_down keys.VK_RETURN = b.on_clicked := by
    simp [WndButton.on_key_down]
  refine ⟨h, ?_, ?_, ?_⟩
  · intro f hf
    rw [h]; simp [WndButton.on_clicked, hf]
  · intro hf
    rw [h]; simp [WndButton.on_clicked, hf]
  · intro key_code
    simp [WndButton.on_key_check]

/-- C8, witness: a button with the callback 7 registered, on the Windows key codes. -/
theorem WndButton_on_key_down_return_witness :
    WndButton.on_key_down ⟨13, 115⟩ false (fun _ => false) ⟨"OK", some 7⟩ 13 =
      (true, [⟨7, ⟨"OK", some 7⟩⟩]) :=
  (WndButton_on_key_down_return ⟨13, 115⟩ false (fun _ => false) ⟨"OK", some 7⟩).2.1 7 rfl

/-! ## `Resize`: the stretch of the flat edges -/

/-- C11 (as amended): for every available width `w` below `2^28` (with large + medium font
height at least `Scale(2)` and sizes below `2^28`, so that nothing wraps), after `Resize(w)`
the four interior vertices 1 to 4 stand at their nominal places (`nominal_width - hint_width` for 1
and 4, `nominal_width` for 2 and 3, the nominal width being `Scale(360)`) shifted by
`max (w - 2 * hint_width - nominal_width - 1) (2 * hint_width - nominal_width)`, so that the
flat top edge and the flat bottom edge have the same length `max (w - 4 * hint_width - 1) 0`;
the edges are never of negative length, and when `w ≥ 4 * hint_width + 1` the right tip is at
`x = w - 2 * hint_width - 1`. -/
theorem Resize_flat_edges (look : NavSliderLook) (layout : Layout) (s : SliderShape) (w : Nat)
    (h : NoWrap look layout s w) :
    pointX look layout s w 1 = layout.Scale 360 - hintWidth look layout s w +
      max ((w : Int) - 2 * hintWidth look layout s w - layout.Scale 360 - 1)
        (2 * hintWidth look layout s w - layout.Scale 360) ∧
    pointX look layout s w 2 = layout.Scale 360 +
      max ((w : Int) - 2 * hintWidth look layout s w - layout.Scale 360 - 1)
        (2 * hintWidth look layout s w - layout.Scale 360) ∧
    pointX look layout s w 3 = layout.Scale 360 +
      max ((w : Int) - 2 * hintWidth look layout s w - layout.Scale 360 - 1)
        (2 * hintWidth look layout s w - layout.Scale 360) ∧
    pointX look layout s w 4 = layout.Scale 360 - hintWidth look layout s w +
      max ((w : Int) - 2 * hintWidth look layout s w - layout.Scale 360 - 1)
        (2 * hintWidth look layout s w - layout.Scale 360) ∧
    pointX look layout s w 0 = hintWidth look layout s w ∧
    pointX look layout s w 5 = hintWidth look layout s w ∧
    pointX look layout s w 1 - pointX look layout s w 0 =
      max ((w : Int) - 4 * hintWidth look layout s w - 1) 0 ∧
    pointX look layout s w 4 - pointX look layout s w 5 =
      max ((w : Int) - 4 * hintWidth look layout s w - 1) 0 ∧
    pointX look layout s w 0 ≤ pointX look layout s w 1 ∧
    pointX look layout s w 5 ≤ pointX look layout s w 4 ∧
    (4 * hintWidth look layout s w + 1 ≤ (w : Int) →
      pointX look layout s w 2 = (w : Int) - 2 * hintWidth look layout s w - 1 ∧
      pointX look layout s w 3 = (w : Int) - 2 * hintWidth look layout s w - 1) := by
  obtain ⟨a0, a1, a2, a3, a4, a5, a6, a7⟩ := pointX_eq look layout s w h
  simp only [hintWidth_eq look layout s w h, a0, a1, a2, a3, a4, a5, exactGrow]
  clear a0 a1 a2 a3 a4 a5 a6 a7 h
  refine ⟨?_, ?_, ?_, ?_, ?_, ?_, ?_, ?_, ?_, ?_, ?_⟩ <;> first | trivial | omega

/-- C11, witness: the example shape at the width 500; the hint width is 20, the flat edges
are 419 long and the right tip is at x = 459. -/
theorem Resize_flat_edges_witness :
    NoWrap exampleLook exampleLayout exampleShape 500 ∧
    pointX exampleLook exampleLayout exampleShape 500 1 -
      pointX exampleLook exampleLayout exampleShape 500 0 =
      max (((500 : Nat) : Int) - 4 * hintWidth exampleLook exampleLayout exampleShape 500 - 1) 0 ∧
    pointX exampleLook exampleLayout exampleShape 500 1 -
      pointX exampleLook exampleLayout exampleShape 500 0 = 419 ∧
    pointX exampleLook exampleLayout exampleShape 500 2 = 459 :=
  ⟨by decide,
   (Resize_flat_edges exampleLook exampleLayout exampleShape 500 (by decide)).2.2.2.2.2.2.1,
   by decide, by decide⟩

/-- C11, counterexample: the example shape (hint width 20, nominal width 360) at the
available width 4294967295, the largest 32-bit `unsigned`.  The difference
`map_width - 2 * hint - 360 - 1` is 4294966894 as an `unsigned` and -402 as a `PixelScalar`,
below `neg_min_grow = -320`, so the points are shifted by -320: the flat edges have length
0, not `max (w - 4 * hint - 1) 0 = 4294967214`, and the right tip is at x = 40, not at
`w - 2 * hint - 1 = 4294967254`, although `w ≥ 4 * hint + 1`. -/
theorem Resize_flat_edges_counterexample :
    hintWidth exampleLook exampleLayout exampleShape 4294967295 = 20 ∧
    pointX exampleLook exampleLayout exampleShape 4294967295 1 -
      pointX exampleLook exampleLayout exampleShape 4294967295 0 = 0 ∧
    pointX exampleLook exampleLayout exampleShape 4294967295 4 -
      pointX exampleLook exampleLayout exampleShape 4294967295 5 = 0 ∧
    max (((4294967295 : Nat) : Int) -
      4 * hintWidth exampleLook exampleLayout exampleShape 4294967295 - 1) 0 = 4294967214 ∧
    4 * hintWidth exampleLook exampleLayout exampleShape 4294967295 + 1 ≤
      ((4294967295 : Nat) : Int) ∧
    pointX exampleLook exampleLayout exampleShape 4294967295 2 = 40 ∧
    ((4294967295 : Nat) : Int) -
      2 * hintWidth exampleLook exampleLayout exampleShape 4294967295 - 1 = 4294967254 := by
  decide

/-! ## `DrawOutline`: the clamped vertices -/

/-- Where the canvas holds the margins and nothing wraps, a clamped vertex lies between the
four margins, and it is the raw vertex when that lies between them already. -/
theorem clampedVertex_bounds (env : Env) (s : SliderShape) (rc : PixelRect)
    (use_wide_pen : Bool) (hm : CanvasHoldsMargins env use_wide_pen)
    (hr : CanvasInRange env use_wide_pen) (i : Nat) :
    env.canvas_rect.left + (env.look.border_pen_width use_wide_pen : Int) / 2
        + DrawOutline_width_offset env ≤ (clampedVertex env s rc use_wide_pen i).x ∧
    (clampedVertex env s rc use_wide_pen i).x ≤
      env.canvas_rect.right - (env.look.border_pen_width use_wide_pen : Int) / 2 - 1 ∧
    env.canvas_rect.top + DrawOutline_top_line_offset env ≤
      (clampedVertex env s rc use_wide_pen i).y ∧
    (clampedVertex env s rc use_wide_pen i).y ≤
      env.canvas_rect.bottom - (env.look.border_pen_width use_wide_pen : Int) / 2 - 1 ∧
    (clampedVertex env s rc use_wide_pen i).x =
      min (max (rawVertex s rc i).x
        (env.canvas_rect.left + (env.look.border_pen_width use_wide_pen : Int) / 2
          + DrawOutline_width_offset env))
        (env.canvas_rect.right - (env.look.border_pen_width use_wide_pen : Int) / 2 - 1) ∧
    (clampedVertex env s rc use_wide_pen i).y =
      min (max (rawVertex s rc i).y (env.canvas_rect.top + DrawOutline_top_line_offset env))
        (env.canvas_rect.bottom - (env.look.border_pen_width use_wide_pen : Int) / 2 - 1) := by
  obtain ⟨m1, m2⟩ := hm
  obtain ⟨r1, r2, r3, r4, r5, r6, r7, r8, r9⟩ := hr
  have hwo : DrawOutline_width_offset env = 0 ∨ DrawOutline_width_offset env = 1 := by
    unfold DrawOutline_width_offset; split <;> simp
  have hto : DrawOutline_top_line_offset env = 1 ∨ DrawOutline_top_line_offset env = 2 := by
    unfold DrawOutline_top_line_offset; split <;> simp
  have f1 : (if env.kobo = true then (1 : Int) else 0) = DrawOutline_width_offset env := rfl
  have f2 : (if env.kobo = true then (2 : Int) else 1) = DrawOutline_top_line_offset env := rfl
  have e1 : toPixelScalar (toUPixelScalar
      (env.canvas_rect.left + (env.look.border_pen_width use_wide_pen : Int) / 2
        + DrawOutline_width_offset env)) =
      env.canvas_rect.left + (env.look.border_pen_width use_wide_pen : Int) / 2
        + DrawOutline_width_offset env := by
    rw [toPixelScalar_toUPixelScalar]
    exact toPixelScalar_of_range (by omega) (by omega)
  have e2 : toPixelScalar (toUPixelScalar
      (env.canvas_rect.right - (env.look.border_pen_width use_wide_pen : Int) / 2 - 1)) =
      env.canvas_rect.right - (env.look.border_pen_width use_wide_pen : Int) / 2 - 1 := by
    rw [toPixelScalar_toUPixelScalar]
    exact toPixelScalar_of_range (by omega) (by omega)
  have e3 : toPixelScalar (env.canvas_rect.top + DrawOutline_top_line_offset env) =
      env.canvas_rect.top + DrawOutline_top_line_offset env :=
    toPixelScalar_of_range (by omega) (by omega)
  have e4 : toPixelScalar (toUPixelScalar
      (env.canvas_rect.bottom - (env.look.border_pen_width use_wide_pen : Int) / 2 - 1)) =
      env.canvas_rect.bottom - (env.look.border_pen_width use_wide_pen : Int) / 2 - 1 := by
    rw [toPixelScalar_toUPixelScalar]
    exact toPixelScalar_of_range (by omega) (by omega)
  simp only [clampedVertex, f1, f2, e1, e2, e3, e4]
  generalize (rawVertex s rc i).x = rx
  generalize (rawVertex s rc i).y = ry
  refine ⟨?_, ?_, ?_, ?_, trivial, trivial⟩ <;> omega

/-- C12 (as amended): in `DrawOutline`, for every canvas rectangle large enough to hold the
margins (`left + w/2 + width_offset ≤ right - w/2 - 1` and
`top + top_line_offset ≤ bottom - w/2 - 1`, with `w` the border pen width, and nothing
wrapping) and every target rectangle and shape, each clamped vertex lies inside the canvas
rectangle, at least `w/2 + width_offset` from its left edge, at least `top_line_offset` from
its top edge and at least `w/2 + 1` from its right and bottom edges, so the assertion
`canvas_rect.IsInside({x, y})` holds for every vertex.  A vertex that already satisfies
these four bounds is left equal to its unclamped value; a vertex nearer to the top edge
than `top_line_offset` is moved down to `top + top_line_offset`. -/
theorem DrawOutline_clamped_inside (env : Env) (s : SliderShape) (rc : PixelRect)
    (use_wide_pen : Bool) (hm : CanvasHoldsMargins env use_wide_pen)
    (hr : CanvasInRange env use_wide_pen) :
    (∀ i,
      env.canvas_rect.IsInside (clampedVertex env s rc use_wide_pen i) = true ∧
      env.canvas_rect.left + (env.look.border_pen_width use_wide_pen : Int) / 2
          + DrawOutline_width_offset env ≤ (clampedVertex env s rc use_wide_pen i).x ∧
      (clampedVertex env s rc use_wide_pen i).x ≤
        env.canvas_rect.right - (env.look.border_pen_width use_wide_pen : Int) / 2 - 1 ∧
      env.canvas_rect.top + DrawOutline_top_line_offset env ≤
        (clampedVertex env s rc use_wide_pen i).y ∧
      (clampedVertex env s rc use_wide_pen i).y ≤
        env.canvas_rect.bottom - (env.look.border_pen_width use_wide_pen : Int) / 2 - 1 ∧
      (env.canvas_rect.left + (env.look.border_pen_width use_wide_pen : Int) / 2
            + DrawOutline_width_offset env ≤ (rawVertex s rc i).x ∧
          (rawVertex s rc i).x ≤
            env.canvas_rect.right - (env.look.border_pen_width use_wide_pen : Int) / 2 - 1 ∧
          env.canvas_rect.top + DrawOutline_top_line_offset env ≤ (rawVertex s rc i).y ∧
          (rawVertex s rc i).y ≤
            env.canvas_rect.bottom - (env.look.border_pen_width use_wide_pen : Int) / 2 - 1 →
        clampedVertex env s rc use_wide_pen i = rawVertex s rc i) ∧
      ((rawVertex s rc i).y < env.canvas_rect.top + DrawOutline_top_line_offset env →
        (clampedVertex env s rc use_wide_pen i).y =
          env.canvas_rect.top + DrawOutline_top_line_offset env)) ∧
    DrawOutline_asserts env s rc use_wide_pen = true := by
  have hwo : 0 ≤ DrawOutline_width_offset env := by
    unfold DrawOutline_width_offset; split <;> simp
  have hto : 0 ≤ DrawOutline_top_line_offset env := by
    unfold DrawOutline_top_line_offset; split <;> simp
  have inside : ∀ i, env.canvas_rect.IsInside (clampedVertex env s rc use_wide_pen i) = true := by
    intro i
    obtain ⟨b1, b2, b3, b4, _, _⟩ := clampedVertex_bounds env s rc use_wide_pen hm hr i
    simp only [PixelRect.IsInside, Bool.and_eq_true, decide_eq_true_eq]
    omega
  refine ⟨?_, ?_⟩
  · intro i
    obtain ⟨b1, b2, b3, b4, ex, ey⟩ := clampedVertex_bounds env s rc use_wide_pen hm hr i
    refine ⟨inside i, b1, b2, b3, b4, ?_, ?_⟩
    · rintro ⟨c1, c2, c3, c4⟩
      have hx : (clampedVertex env s rc use_wide_pen i).x = (rawVertex s rc i).x := by
        rw [ex]; omega
      have hy : (clampedVertex env s rc use_wide_pen i).y = (rawVertex s rc i).y := by
        rw [ey]; omega
      cases hc : clampedVertex env s rc use_wide_pen i
      cases hw : rawVertex s rc i
      rw [hc, hw] at hx hy
      simp only at hx hy
      rw [hx, hy]
    · intro c
      obtain ⟨_, m2⟩ := hm
      rw [ey]; omega
  · simp only [DrawOutline_asserts, List.all_eq_true, decide_eq_true_eq]
    intro i _
    exact inside i

/-- C12, witness: the example shape on the example canvas (480 by 272, pen width 1); the
clamped vertex 2, the right tip, is inside the canvas. -/
theorem DrawOutline_clamped_inside_witness :
    CanvasHoldsMargins exampleEnv false ∧ CanvasInRange exampleEnv false ∧
    exampleEnv.canvas_rect.IsInside
      (clampedVertex exampleEnv exampleResized ⟨0, 0, 360, 42⟩ false 2) = true ∧
    DrawOutline_asserts exampleEnv exampleResized ⟨0, 0, 360, 42⟩ false = true :=
  have h := DrawOutline_clamped_inside exampleEnv exampleResized ⟨0, 0, 360, 42⟩ false
    (by decide) (by decide)
  ⟨by decide, by decide, (h.1 2).1, h.2⟩

/-- C12, counterexample: on the example canvas (left = top = 0, 480 by 272, pen width 1, so
`w/2 = 0`, `width_offset = 0`, `top_line_offset = 1`), which holds the margins, the
unclamped vertex 0 of the example shape is (20, 0): it is inside the canvas, 20 from the
left edge, 460 from the right edge and 272 from the bottom edge, and yet the clamped
vertex is (20, 1), not the unclamped value. -/
theorem DrawOutline_clamped_inside_counterexample :
    CanvasHoldsMargins exampleEnv false ∧
    rawVertex exampleResized ⟨0, 0, 360, 42⟩ 0 = ⟨20, 0⟩ ∧
    exampleEnv.canvas_rect.IsInside (rawVertex exampleResized ⟨0, 0, 360, 42⟩ 0) = true ∧
    exampleEnv.canvas_rect.left + (exampleEnv.look.border_pen_width false : Int) / 2
        + DrawOutline_width_offset exampleEnv ≤
      (rawVertex exampleResized ⟨0, 0, 360, 42⟩ 0).x ∧
    (rawVertex exampleResized ⟨0, 0, 360, 42⟩ 0).x ≤
      exampleEnv.canvas_rect.right - (exampleEnv.look.border_pen_width false : Int) / 2 - 1 ∧
    (rawVertex exampleResized ⟨0, 0, 360, 42⟩ 0).y ≤
      exampleEnv.canvas_rect.bottom - (exampleEnv.look.border_pen_width false : Int) / 2 - 1 ∧
    clampedVertex exampleEnv exampleResized ⟨0, 0, 360, 42⟩ false 0 = ⟨20, 1⟩ ∧
    clampedVertex exampleEnv exampleResized ⟨0, 0, 360, 42⟩ false 0 ≠
      rawVertex exampleResized ⟨0, 0, 360, 42⟩ 0 := by
  decide

/-! ## `Draw`: the bearing -/

/-- The test `do_bearing` of `Draw` holds exactly when the bearing is valid and
applicable. -/
theorem Draw_do_bearing_iff (a : DrawArgs) : Draw_do_bearing a = true ↔ BearingApplicable a := by
  unfold Draw_do_bearing BearingApplicable DrawArgs.is_ordered
  by_cases ho : a.task_mode = TaskType.ORDERED <;> cases a.is_current_tp <;>
    cases a.bearing_valid <;> simp [ho]

/-- Every icon `DrawBearing` selects is a bearing icon. -/
theorem DrawBearing_select_isBearing (d : ℚ) (icon : Icon)
    (h : (DrawBearing_select d).1 = some icon) : icon.isBearing = true := by
  rw [DrawBearing_select_eq] at h
  split_ifs at h <;> (cases h; rfl)

theorem isPlain_not_bearing (ops : List DrawOp) (h : ops.all DrawOp.isPlain = true) :
    ops.any DrawOp.isBearingIcon = false := by
  rw [List.any_eq_false]
  intro op hop
  have := List.all_eq_true.mp h op hop
  cases op <;> simp_all [DrawOp.isPlain, DrawOp.isIcon, DrawOp.isBearingIcon]

theorem Draw_altitude_no_bearing (env : Env) (s : SliderShape) (a : DrawArgs) :
    (Draw_altitude env s a).any DrawOp.isBearingIcon = false := by
  simp only [Draw_altitude]
  split
  · split <;> rfl
  · rfl

theorem Draw_name_icon_no_bearing (env : Env) (s : SliderShape) (a : DrawArgs) (left_icon : Int)
    (icon : Icon) (icon_size : PixelSize) (hi : icon.isBearing = false) :
    (Draw_name_icon env s a left_icon icon icon_size).any DrawOp.isBearingIcon = false := by
  simp only [Draw_name_icon]
  split_ifs <;> first
    | rfl
    | (simp only [List.any_cons, List.any_nil, DrawOp.isBearingIcon, hi, Bool.or_false])
    | (split <;> rfl)

theorem Draw_name_no_bearing (env : Env) (s : SliderShape) (a : DrawArgs)
    (dir : BearingDirection) : (Draw_name env s a dir).any DrawOp.isBearingIcon = false := by
  simp only [Draw_name, List.any_append]
  rw [Bool.or_eq_false_iff]
  constructor
  · rfl
  · split
    · apply Draw_name_icon_no_bearing
      split_ifs <;> rfl
    · rfl

/-- The bearing icons among the calls of the distance part of `Draw` are those of the call
of `DrawBearing`, which is made only where the distance or the glide ratio is shown. -/
theorem Draw_distance_bearing_icons (env : Env) (s : SliderShape) (a : DrawArgs) :
    (Draw_distance env s a).2.any DrawOp.isBearingIcon =
      if a.distance_valid || (a.gr_valid && env.navbar_enable_gr) then
        (Draw_bearing env s a).2.any DrawOp.isBearingIcon
      else false := by
  simp only [Draw_distance]
  split
  · have e1 : (Draw_label env s a).any DrawOp.isBearingIcon = false := by
      simp only [Draw_label]
      split
      · split <;> rfl
      · rfl
    have e2 : (Draw_distance_string env s a).any DrawOp.isBearingIcon = false := by
      simp only [Draw_distance_string]
      split <;> rfl
    simp only [List.any_append, e1, e2, Bool.or_false]
    simp [DrawOp.isBearingIcon]
  · split <;> rfl

/-- The direction the distance part of `Draw` hands to the name part. -/
theorem Draw_distance_direction (env : Env) (s : SliderShape) (a : DrawArgs) :
    (Draw_distance env s a).1 =
      if a.distance_valid || (a.gr_valid && env.navbar_enable_gr) then
        (if Draw_do_bearing a then (DrawBearing env s a.rc_outer a.delta_bearing).1
          else BearingDirection.None)
      else BearingDirection.None := by
  simp only [Draw_distance, Draw_bearing]
  split
  · split <;> rfl
  · rfl

/-- C13 (as amended): for every valid, visible entry drawn by `Draw`.  When the bearing is
valid and applicable (the task is not ordered, or the task is ordered and the entry is the
current item with `idx > 0`), the distance or the glide ratio is shown (the distance is
valid, or the glide ratio is valid and its setting enabled) and the bearing delta has a
magnitude above 2 degrees, `DrawBearing` is called, it selects one of the eight bearing
icons, and the bearing direction used for the name layout is the one it returns: `Right`
for a delta above 2, `Left` for a delta below -2, never `None`.  When the bearing is not
valid or not applicable, or when neither the distance nor the glide ratio is shown,
`DrawBearing` is not called: the direction stays `None` and no bearing icon is drawn. -/
theorem Draw_bearing_direction (env : Env) (s : SliderShape) (a : DrawArgs)
    (hv : a.tp_valid = true)
    (hvis : outlineVisibility env s a.rc_outer ≠ VisibilityLevel.NotVisible) :
    ∃ ops pre, Draw env s a = some ops ∧
      ops = pre ++ Draw_name env s a (Draw_distance env s a).1 ∧
      (BearingApplicable a →
        (a.distance_valid = true ∨ (a.gr_valid = true ∧ env.navbar_enable_gr = true)) →
        (2 < a.delta_bearing ∨ a.delta_bearing < -2) →
          Draw_bearing env s a = DrawBearing env s a.rc_outer a.delta_bearing ∧
          (Draw_distance env s a).1 = (DrawBearing env s a.rc_outer a.delta_bearing).1 ∧
          (∃ icon, (DrawBearing_select a.delta_bearing).1 = some icon ∧ icon.isBearing = true) ∧
          (2 < a.delta_bearing → (Draw_distance env s a).1 = BearingDirection.Right) ∧
          (a.delta_bearing < -2 → (Draw_distance env s a).1 = BearingDirection.Left) ∧
          (Draw_distance env s a).1 ≠ BearingDirection.None) ∧
      (¬ BearingApplicable a →
        Draw_bearing env s a = (BearingDirection.None, []) ∧
        (Draw_distance env s a).1 = BearingDirection.None ∧
        ops.any DrawOp.isBearingIcon = false) ∧
      (¬ (a.distance_valid = true ∨ (a.gr_valid = true ∧ env.navbar_enable_gr = true)) →
        (Draw_distance env s a).1 = BearingDirection.None ∧
        ops.any DrawOp.isBearingIcon = false) := by
  rcases DrawOutline_cases env s a.rc_outer a.use_wide_pen with ⟨h, _⟩ | ⟨_, outline, hd, hall⟩
  · exact absurd h hvis
  have hcond : (a.distance_valid || (a.gr_valid && env.navbar_enable_gr)) = true ↔
      (a.distance_valid = true ∨ (a.gr_valid = true ∧ env.navbar_enable_gr = true)) := by
    simp only [Bool.or_eq_true, Bool.and_eq_true]
  have h1 := isPlain_not_bearing outline hall
  have h2 : (if env.win32 && env.HasDraggableScreen then
      PaintBackground s a.idx (if a.task_mode = TaskType.GOTO then 1 else a.task_size)
        a.rc_outer
      else []).any DrawOp.isBearingIcon = false := by
    split
    · exact isPlain_not_bearing _ (PaintBackground_isPlain _ _ _ _)
    · rfl
  have h3 := Draw_altitude_no_bearing env s a
  have h4 := Draw_name_no_bearing env s a (Draw_distance env s a).1
  have e0 : [DrawOp.SetTextColor a.selected, DrawOp.SelectBackgroundBrush a.selected].any
      DrawOp.isBearingIcon = false := rfl
  have e1 : [DrawOp.SelectFont FontId.small_font].any DrawOp.isBearingIcon = false := rfl
  have hany : ∀ ops, ops = [DrawOp.SetTextColor a.selected,
      DrawOp.SelectBackgroundBrush a.selected] ++ outline ++
      (if env.win32 && env.HasDraggableScreen then
        PaintBackground s a.idx (if a.task_mode = TaskType.GOTO then 1 else a.task_size)
          a.rc_outer
      else []) ++ [DrawOp.SelectFont FontId.small_font] ++ Draw_altitude env s a ++
      (Draw_distance env s a).2 ++ Draw_name env s a (Draw_distance env s a).1 →
      ops.any DrawOp.isBearingIcon = (Draw_distance env s a).2.any DrawOp.isBearingIcon := by
    intro ops hops
    rw [hops]
    simp only [List.any_append, e0, h1, h2, h3, h4, e1, Bool.or_false, Bool.false_or]
  refine ⟨_, _, Draw_visible_eq env s a outline hv hd, rfl, ?_, ?_, ?_⟩
  · intro happ hc hmag
    have hdo := (Draw_do_bearing_iff a).mpr happ
    have hb : Draw_bearing env s a = DrawBearing env s a.rc_outer a.delta_bearing := by
      simp only [Draw_bearing, hdo, if_true]
    have hdir : (Draw_distance env s a).1 = (DrawBearing_select a.delta_bearing).2 := by
      rw [Draw_distance_direction, if_pos (hcond.mpr hc), hdo, if_pos rfl, DrawBearing_direction]
    have hR : 2 < a.delta_bearing → (Draw_distance env s a).1 = BearingDirection.Right := by
      intro h; rw [hdir, DrawBearing_select_direction, if_pos h]
    have hL : a.delta_bearing < -2 → (Draw_distance env s a).1 = BearingDirection.Left := by
      intro h
      have h2 : ¬ 2 < a.delta_bearing := by intro h3; linarith
      rw [hdir, DrawBearing_select_direction, if_neg h2, if_pos h]
    refine ⟨hb, ?_, ?_, hR, hL, ?_⟩
    · rw [hdir, DrawBearing_direction]
    · have hsel : ∃ icon, (DrawBearing_select a.delta_bearing).1 = some icon := by
        rw [DrawBearing_select_eq]
        split_ifs <;> first | exact ⟨_, rfl⟩ | (exfalso; rcases hmag with h | h <;> linarith)
      obtain ⟨icon, hicon⟩ := hsel
      exact ⟨icon, hicon, DrawBearing_select_isBearing _ _ hicon⟩
    · rcases hmag with h | h
      · rw [hR h]; decide
      · rw [hL h]; decide
  · intro happ
    have hdo : Draw_do_bearing a = false := by
      rw [← Bool.not_eq_true, Draw_do_bearing_iff]; exact happ
    have hb : Draw_bearing env s a = (BearingDirection.None, []) := by
      simp [Draw_bearing, hdo]
    refine ⟨hb, ?_, ?_⟩
    · rw [Draw_distance_direction, hdo]
      split <;> rfl
    · rw [hany _ rfl, Draw_distance_bearing_icons, hb]
      split <;> rfl
  · intro hc
    have hc2 : ¬ (a.distance_valid || (a.gr_valid && env.navbar_enable_gr)) = true :=
      fun h => hc (hcond.mp h)
    refine ⟨?_, ?_⟩
    · rw [Draw_distance_direction, if_neg hc2]
    · rw [hany _ rfl, Draw_distance_bearing_icons, if_neg hc2]

/-- C13, witness: the example entry with a valid distance and a valid bearing delta of 25
degrees on a task that is not ordered; the direction used for the name layout is
`Right`. -/
theorem Draw_bearing_direction_witness :
    exampleArgsBearing.tp_valid = true ∧
    outlineVisibility exampleEnv exampleResized exampleArgsBearing.rc_outer ≠
      VisibilityLevel.NotVisible ∧
    BearingApplicable exampleArgsBearing ∧
    (Draw_distance exampleEnv exampleResized exampleArgsBearing).1 = BearingDirection.Right := by
  obtain ⟨_, _, _, _, h, _, _⟩ :=
    Draw_bearing_direction exampleEnv exampleResized exampleArgsBearing rfl (by decide)
  have hm : (2 : ℚ) < exampleArgsBearing.delta_bearing := by norm_num [exampleArgsBearing]
  exact ⟨rfl, by decide, by decide, (h (by decide) (Or.inl rfl) (Or.inl hm)).2.2.2.1 hm⟩

/-- C13, counterexample: a valid, fully visible entry of a task that is not ordered, with a
valid bearing delta of 25 degrees, but with neither a valid distance nor a valid glide
ratio.  `Draw` takes the branch that draws the type label only: the bearing direction
handed to the name layout is `None`, and no icon is drawn. -/
theorem Draw_bearing_direction_counterexample :
    exampleArgsBearingOnly.tp_valid = true ∧
    outlineVisibility exampleEnv exampleResized exampleArgsBearingOnly.rc_outer =
      VisibilityLevel.Full ∧
    BearingApplicable exampleArgsBearingOnly ∧
    (2 : ℚ) < exampleArgsBearingOnly.delta_bearing ∧
    (Draw_distance exampleEnv exampleResized exampleArgsBearingOnly).1 =
      BearingDirection.None ∧
    (Draw exampleEnv exampleResized exampleArgsBearingOnly).map
      (fun ops => ops.any DrawOp.isIcon) = some false ∧
    (Draw exampleEnv exampleResized exampleArgsBearingOnly).map
      (fun ops => ops.any (DrawOp.drawsBuffer TextBuffer.type_buffer)) = some true :=
  ⟨by decide, by decide, by decide, by norm_num [exampleArgsBearingOnly], by decide, by decide,
    by decide⟩

end TopHat
